import Mathlib

/-!
Verification development for the MCBO agent orchestration engine
(`python/mcbo/agent/`): a shallow embedding of the orchestration loop
(`orchestrator.py`), the tool executor (`tools.py`), the statistical tools
(`stats_tools.py`) and the pathway-enrichment core (`pathway_tools.py`),
together with theorems settling the specified behavioural claims.

Modelling conventions, used throughout:
* Python floats are modelled as rationals (`ℚ`); transcendental operations
  (`np.log2`, `scipy.stats.ttest_ind`, `pearsonr`, `spearmanr`, standard
  deviation) are fields of an abstract `StatsLib` oracle, so theorems
  quantify over every implementation of those operations.  Float `NaN`/`inf`
  special values have no counterpart in `ℚ`; the `NaN`-guards of the source
  are noted where they are modelled away.
* SPARQL result cells are strings or missing; analytic value columns are
  modelled as numeric-or-missing (`Cell.num`/`Cell.null`).  A non-numeric
  string in a value column would make `astype(float)` raise in Python (the
  exception is caught at the dispatch boundary); such cells are treated as
  missing by the numeric accessor `cellNum`.
* `pandas.Series.str.contains` is called with `case=False` and a plain
  label; it is modelled as case-insensitive substring containment
  (the pandas regex interpretation of metacharacters is out of scope).
* Kernel-computable replacements are used for string primitives whose
  built-in versions do not reduce in the kernel (`natToStr` for `str(int)`,
  char-list case-insensitive containment for `str.contains`, etc.).
-/

namespace Mcbo

/-! ### Character and string utilities -/

/-- ASCII lower-casing on code points: the case-insensitive comparisons of
`str.contains(..., case=False)` and `str.upper()`/`str.lower()` act on
ASCII letters in all data appearing in this system. -/
def lowerNat (n : ℕ) : ℕ := if 65 ≤ n ∧ n ≤ 90 then n + 32 else n

/-- Case-insensitive character equality. -/
def charEqCI (a b : Char) : Bool := lowerNat a.toNat == lowerNat b.toNat

/-- `pat` is a case-insensitive prefix of `hay` (char-list level). -/
def isPreCI : List Char → List Char → Bool
  | [], _ => true
  | _ :: _, [] => false
  | a :: as, b :: bs => charEqCI a b && isPreCI as bs

/-- `pat` occurs case-insensitively inside `hay` (char-list level). -/
def isSubCI : List Char → List Char → Bool
  | pat, [] => pat.isEmpty
  | pat, h :: t => isPreCI pat (h :: t) || isSubCI pat t

/-- `containsCI hay pat` models `hay.str.contains(pat, case=False)` for a
literal (metacharacter-free) pattern. -/
def containsCI (hay pat : String) : Bool := isSubCI pat.toList hay.toList

/-- Exact prefix test on char lists (case-sensitive). -/
def isPreExact : List Char → List Char → Bool
  | [], _ => true
  | _ :: _, [] => false
  | a :: as, b :: bs => (a == b) && isPreExact as bs

/-- Exact substring test on char lists. -/
def isSubExact : List Char → List Char → Bool
  | pat, [] => pat.isEmpty
  | pat, h :: t => isPreExact pat (h :: t) || isSubExact pat t

/-- `isSubstr sub s` : case-sensitive substring test, used to state the
"error message contains ..." clauses of the specification. -/
def isSubstr (sub s : String) : Bool := isSubExact sub.toList s.toList

/-- Decimal digit character. -/
def digitChar (n : ℕ) : Char := Char.ofNat (48 + n % 10)

/-- Decimal rendering of a natural number (kernel-computable `str(int)`). -/
def natToStrAux : ℕ → ℕ → List Char
  | 0, _ => []
  | fuel + 1, n => if n < 10 then [digitChar n] else natToStrAux fuel (n / 10) ++ [digitChar (n % 10)]

/-- `natToStr n` models Python `str(n)` for a natural number. -/
def natToStr (n : ℕ) : String := String.mk (natToStrAux (n + 1) n)

/-- Rendering of a rational cell under `astype(str)`.  Python renders a
float; the exact digits are irrelevant to every claim (group columns are
string-valued), so a sign/num/den rendering is used. -/
def ratToStr (q : ℚ) : String :=
  (if q.num < 0 then "-" else "") ++ natToStr q.num.natAbs ++
    (if q.den = 1 then "" else "/" ++ natToStr q.den)

/-- The apostrophe character as a string (used by Python error messages
such as `KeyError` rendering). -/
def sq : String := String.mk [Char.ofNat 39]

/-- ASCII upper-casing of a code point. -/
def upperNat (n : ℕ) : ℕ := if 97 ≤ n ∧ n ≤ 122 then n - 32 else n

/-- `toUpperStr s` models `s.upper()`. -/
def toUpperStr (s : String) : String :=
  String.mk (s.toList.map fun c => Char.ofNat (upperNat c.toNat))

/-! ### Tabular data model

`execute_sparql` materializes a SPARQL result as a pandas DataFrame whose
cells are strings or missing (`tools.py` lines 313-323).  Analytic value
columns hold decimal strings, modelled directly as rationals. -/

/-- One table cell. -/
inductive Cell where
  | null : Cell
  | str : String → Cell
  | num : ℚ → Cell
deriving DecidableEq, Repr

/-- A row: association list from column name to cell. -/
abbrev Row : Type := List (String × Cell)

/-- Cell of row `r` in column `c`; a column missing from the row reads as
missing data. -/
def getCell (r : Row) (c : String) : Cell :=
  match r.find? (fun p => p.1 == c) with
  | some p => p.2
  | none => Cell.null

/-- The session working table (ordered rows over named columns). -/
structure DataFrame where
  cols : List String
  rows : List Row
deriving DecidableEq

/-- Numeric view of a cell: models `dropna().astype(float)` on a value
column (missing data is dropped; a numeric cell parses to itself). -/
def cellNum : Cell → Option ℚ
  | Cell.num q => some q
  | _ => none

/-- String view of a cell: models `astype(str)` on an object column
(`None` renders as the string `"None"`). -/
def cellToStr : Cell → String
  | Cell.null => "None"
  | Cell.str s => s
  | Cell.num q => ratToStr q

/-- Models `series.str.contains(pat, case=False, na=False)` without a prior
`astype(str)`: non-string cells give `False`. -/
def strContainsNA (c : Cell) (pat : String) : Bool :=
  match c with
  | Cell.str s => containsCI s pat
  | _ => false

/-! ### Statistical library oracle

`stats_tools.py` imports `scipy.stats` when available.  The transcendental
float computations are abstracted into an oracle so every theorem holds for
any implementation of them. -/

/-- Abstract interface to scipy/numpy float routines used by the tools. -/
structure StatsLib where
  /-- whether `scipy` imported successfully (`SCIPY_AVAILABLE`). -/
  scipyAvailable : Bool
  /-- `np.log2`. -/
  log2 : ℚ → ℚ
  /-- p-value of `scipy.stats.ttest_ind(g1, g2, equal_var=False)`. -/
  ttest_ind : List ℚ → List ℚ → ℚ
  /-- `scipy.stats.pearsonr` as (coefficient, p-value). -/
  pearsonr : List (ℚ × ℚ) → ℚ × ℚ
  /-- `scipy.stats.spearmanr` as (coefficient, p-value). -/
  spearmanr : List (ℚ × ℚ) → ℚ × ℚ
  /-- pandas `Series.corr` fallback used when scipy is unavailable. -/
  corrFallback : String → List (ℚ × ℚ) → ℚ
  /-- pandas sample standard deviation. -/
  std : List ℚ → ℚ

/-- Arithmetic mean. -/
def qmean (l : List ℚ) : ℚ := l.sum / l.length

/-- Maximum of a list of rationals (0 on the empty list, which never
occurs at its call sites). -/
def qlistMax : List ℚ → ℚ
  | [] => 0
  | h :: t => t.foldl max h

/-- Minimum of a list of rationals. -/
def qlistMin : List ℚ → ℚ
  | [] => 0
  | h :: t => t.foldl min h

/-- Median of a list of rationals (`np.median` on a nonempty list). -/
def qmedian (l : List ℚ) : ℚ :=
  let s := l.mergeSort (fun a b => decide (a ≤ b))
  if s.length % 2 = 1 then s.getD (s.length / 2) 0
  else (s.getD (s.length / 2 - 1) 0 + s.getD (s.length / 2) 0) / 2

/-! ### `compute_correlation` (`stats_tools.py` lines 22-79) -/

/-- Result dict of `compute_correlation`. -/
structure CorrResult where
  correlation : Option ℚ
  p_value : Option ℚ
  n_samples : ℕ
  method : String
  significant : Bool
  error : Option String
deriving DecidableEq

/-- `df[[x_col, y_col]].dropna()` followed by `astype(float)`: the list of
complete numeric pairs, in row order. -/
def validPairs (df : DataFrame) (xCol yCol : String) : List (ℚ × ℚ) :=
  df.rows.filterMap fun r =>
    match cellNum (getCell r xCol), cellNum (getCell r yCol) with
    | some x, some y => some (x, y)
    | _, _ => none

/-- `compute_correlation(df, x_col, y_col, method, min_samples)`. -/
def compute_correlation (lib : StatsLib) (df : DataFrame) (x_col y_col : String)
    (method : String := "pearson") (min_samples : ℕ := 3) : CorrResult :=
  let pairs := validPairs df x_col y_col
  let n := pairs.length
  if n < min_samples then
    { correlation := none, p_value := none, n_samples := n, method := method,
      significant := false,
      error := some ("Insufficient samples: " ++ natToStr n ++ " < " ++ natToStr min_samples) }
  else
    let cp : ℚ × Option ℚ :=
      if lib.scipyAvailable then
        if method == "pearson" then
          let c := lib.pearsonr pairs
          (c.1, some c.2)
        else
          let c := lib.spearmanr pairs
          (c.1, some c.2)
      else (lib.corrFallback method pairs, none)
    { correlation := some cp.1, p_value := cp.2, n_samples := n, method := method,
      significant := match cp.2 with | some p => decide (p < 1/20) | none => false,
      error := none }

/-! ### `compute_fold_change` (`stats_tools.py` lines 82-158) -/

/-- Result dict of `compute_fold_change`.  The error branch of the source
omits the `log2` key and reports group means only for nonempty groups;
`Option` fields mirror the presence of values. -/
structure FoldChangeResult where
  fold_change : Option ℚ
  log2 : Bool
  mean_group1 : Option ℚ
  mean_group2 : Option ℚ
  n_group1 : ℕ
  n_group2 : ℕ
  p_value : Option ℚ
  significant : Bool
  error : Option String
deriving DecidableEq

/-- `df[df[group_col].astype(str).str.contains(label, case=False)]
[value_col].dropna().astype(float)`: values of the rows whose group label
case-insensitively contains `label`. -/
def groupVals (df : DataFrame) (group_col value_col label : String) : List ℚ :=
  (df.rows.filter fun r => containsCI (cellToStr (getCell r group_col)) label).filterMap
    fun r => cellNum (getCell r value_col)

/-- `compute_fold_change(df, group_col, value_col, group1, group2, log2,
add_pseudocount)`.  The `try/except` around `ttest_ind` and the float
`NaN`/`inf` guards have no `ℚ` counterpart: the oracle p-value is total and
`log2` is applied as a total function. -/
def compute_fold_change (lib : StatsLib) (df : DataFrame)
    (group_col value_col group1 group2 : String)
    (log2 : Bool := true) (add_pseudocount : ℚ := 1) : FoldChangeResult :=
  let g1_vals := groupVals df group_col value_col group1
  let g2_vals := groupVals df group_col value_col group2
  let n1 := g1_vals.length
  let n2 := g2_vals.length
  if n1 = 0 ∨ n2 = 0 then
    { fold_change := none, log2 := log2,
      mean_group1 := if 0 < n1 then some (qmean g1_vals) else none,
      mean_group2 := if 0 < n2 then some (qmean g2_vals) else none,
      n_group1 := n1, n_group2 := n2, p_value := none, significant := false,
      error := some ("Empty group(s): group1=" ++ natToStr n1 ++ ", group2=" ++ natToStr n2) }
  else
    let mean1 := qmean g1_vals
    let mean2 := qmean g2_vals
    let fc : Option ℚ :=
      if log2 then some (lib.log2 ((mean1 + add_pseudocount) / (mean2 + add_pseudocount)))
      else if mean2 ≠ 0 then some (mean1 / mean2) else none
    let p_val : Option ℚ :=
      if lib.scipyAvailable ∧ 2 ≤ n1 ∧ 2 ≤ n2 then some (lib.ttest_ind g1_vals g2_vals)
      else none
    { fold_change := fc, log2 := log2, mean_group1 := some mean1, mean_group2 := some mean2,
      n_group1 := n1, n_group2 := n2, p_value := p_val,
      significant := match p_val with | some p => decide (p < 1/20) | none => false,
      error := none }

/-! ### `differential_expression` (`stats_tools.py` lines 289-387) -/

/-- First-occurrence deduplication, as `pandas.Series.unique`. -/
def dedupFirstAux {α : Type} [DecidableEq α] (seen : List α) : List α → List α
  | [] => []
  | a :: l => if a ∈ seen then dedupFirstAux seen l else a :: dedupFirstAux (a :: seen) l

/-- `series.unique()`: first occurrences in order. -/
def dedupFirst {α : Type} [DecidableEq α] (l : List α) : List α := dedupFirstAux [] l

/-- One row of the differential-expression result table. -/
structure DEResult where
  gene : Cell
  log2FoldChange : Option ℚ
  mean_group1 : Option ℚ
  mean_group2 : Option ℚ
  n_group1 : ℕ
  n_group2 : ℕ
  pvalue : Option ℚ
  significant : Bool
  direction : Option String
deriving DecidableEq

/-- `abs` with the source convention `abs(x) if x is not None else 0`
(`stats_tools.py` lines 379-381). -/
def absOrZero : Option ℚ → ℚ
  | some v => |v|
  | none => 0

/-- The per-gene row built inside the `for gene in genes` loop. -/
def deRow (lib : StatsLib) (df : DataFrame)
    (group_col group1 group2 gene_col value_col : String)
    (log2fc_threshold pvalue_threshold : ℚ) (g : Cell) : DEResult :=
  let gene_data : DataFrame :=
    { cols := df.cols, rows := df.rows.filter fun r => getCell r gene_col == g }
  let fc := compute_fold_change lib gene_data group_col value_col group1 group2 true 1
  let log2fc := fc.fold_change
  let pval := fc.p_value
  let passes_fc : Bool :=
    match log2fc with
    | some v => decide (log2fc_threshold ≤ |v|)
    | none => false
  let passes_pval : Bool :=
    match pval with
    | some p => decide (p < pvalue_threshold)
    | none => false
  { gene := g, log2FoldChange := log2fc,
    mean_group1 := fc.mean_group1, mean_group2 := fc.mean_group2,
    n_group1 := fc.n_group1, n_group2 := fc.n_group2, pvalue := pval,
    significant := passes_fc && (passes_pval || pval.isNone),
    direction :=
      if passes_fc then some (if 0 < log2fc.getD 0 then "up" else "down") else none }

/-- Sort order of the result table:
`sort_values(["significant", "abs_log2fc"], ascending=[False, False])`. -/
def deLE (a b : DEResult) : Bool :=
  if a.significant = b.significant then
    decide (absOrZero b.log2FoldChange ≤ absOrZero a.log2FoldChange)
  else a.significant

/-- `differential_expression(df, group_col, group1, group2, ...)`. -/
def differential_expression (lib : StatsLib) (df : DataFrame)
    (group_col group1 group2 : String)
    (gene_col : String := "gene") (value_col : String := "expressionValue")
    (log2fc_threshold : ℚ := 1) (pvalue_threshold : ℚ := 1/20)
    (cell_line : Option String := none) (cell_line_col : String := "cellLineLabel") :
    List DEResult :=
  let df1 : DataFrame :=
    match cell_line with
    | some cl =>
        if cl ≠ "" ∧ cell_line_col ∈ df.cols then
          { cols := df.cols,
            rows := df.rows.filter fun r => strContainsNA (getCell r cell_line_col) cl }
        else df
    | none => df
  let genes :=
    dedupFirst ((df1.rows.map fun r => getCell r gene_col).filter fun c => c ≠ Cell.null)
  let rows := genes.map
    (deRow lib df1 group_col group1 group2 gene_col value_col log2fc_threshold pvalue_threshold)
  rows.mergeSort deLE

/-! ### `filter_by_threshold` (`stats_tools.py` lines 244-286)

`pd.to_numeric(..., errors="coerce")` turns non-numeric entries into `NaN`;
`NaN` compares `False` under every operator except `!=`, where it compares
`True`.  A raised `ValueError` is modelled as `Except.error` (caught at the
dispatch boundary). -/

/-- Comparison mask of one cell (as `Option ℚ`) against the threshold. -/
def thresholdTest (op : String) (value : ℚ) (x : Option ℚ) : Bool :=
  match x with
  | some q =>
      if op == ">" then decide (value < q)
      else if op == ">=" then decide (value ≤ q)
      else if op == "<" then decide (q < value)
      else if op == "<=" then decide (q ≤ value)
      else if op == "==" then decide (q = value)
      else decide (q ≠ value)
  | none => op == "!="

/-- `filter_by_threshold(df, col, op, value)`. -/
def filter_by_threshold (df : DataFrame) (col op : String) (value : ℚ) :
    Except String DataFrame :=
  if col ∈ df.cols then
    if op == ">" ∨ op == ">=" ∨ op == "<" ∨ op == "<=" ∨ op == "==" ∨ op == "!=" then
      Except.ok { cols := df.cols,
                  rows := df.rows.filter fun r => thresholdTest op value (cellNum (getCell r col)) }
    else Except.error ("Unknown operator: " ++ op)
  else Except.error ("Column " ++ sq ++ col ++ sq ++ " not found in DataFrame")

/-! ### `summarize_by_group` and `find_peak_conditions` -/

/-- Insert an element into a keyed group list, preserving first-occurrence
key order. -/
def addToGroups {κ α : Type} [DecidableEq κ] (k : κ) (a : α) :
    List (κ × List α) → List (κ × List α)
  | [] => [(k, [a])]
  | (k', l') :: rest =>
      if k' = k then (k', l' ++ [a]) :: rest else (k', l') :: addToGroups k a rest

/-- Group a list by a key function (first-occurrence key order; pandas
`groupby` additionally sorts group keys, which no claim depends on). -/
def groupByKey {κ α : Type} [DecidableEq κ] (key : α → κ) (l : List α) :
    List (κ × List α) :=
  l.foldl (fun acc a => addToGroups (key a) a acc) []

/-- One row of the `summarize_by_group` result. -/
structure GroupSummary where
  group : Cell
  mean : ℚ
  std : ℚ
  count : ℕ
  min : ℚ
  max : ℚ
deriving DecidableEq

/-- `summarize_by_group(df, group_col, value_col)` (`stats_tools.py`
lines 413-436). -/
def summarize_by_group (lib : StatsLib) (df : DataFrame) (group_col value_col : String) :
    List GroupSummary :=
  let valid := df.rows.filter fun r =>
    getCell r group_col ≠ Cell.null && getCell r value_col ≠ Cell.null
  let groups := groupByKey (fun r => getCell r group_col) valid
  groups.map fun g =>
    let vs := g.2.filterMap fun r => cellNum (getCell r value_col)
    { group := g.1, mean := qmean vs, std := lib.std vs, count := vs.length,
      min := qlistMin vs, max := qlistMax vs }

/-- Global metric statistics of `find_peak_conditions`. -/
structure MetricStats where
  mean : ℚ
  max : ℚ
  min : ℚ
  std : ℚ
  count : ℕ
deriving DecidableEq

/-- One entry of `top_conditions`: condition values, aggregated metric,
sample count. -/
structure PeakCondition where
  condition : List (String × Cell)
  aggValue : ℚ
  sample_count : ℕ
deriving DecidableEq

/-- Result dict of `find_peak_conditions` (several shapes, merged with
optional fields mirroring key presence). -/
structure PeakResult where
  top_conditions : List PeakCondition
  overall_best : Option PeakCondition
  metric_stats : Option MetricStats
  error : Option String
  note : Option String
  method : Option String
  condition_columns : Option (List String)
deriving DecidableEq

/-- `find_peak_conditions(df, condition_cols, metric_col, method, top_n)`
(`stats_tools.py` lines 161-241).  An unknown aggregation method raises
`KeyError` on the dict lookup, modelled as `Except.error`. -/
def find_peak_conditions (lib : StatsLib) (df : DataFrame)
    (condition_cols : List String) (metric_col : String)
    (method : String := "mean") (top_n : ℕ := 5) : Except String PeakResult :=
  let valid : List (Row × ℚ) := df.rows.filterMap fun r =>
    (cellNum (getCell r metric_col)).map fun q => (r, q)
  let vals := valid.map Prod.snd
  if valid.isEmpty then
    Except.ok { top_conditions := [], overall_best := none, metric_stats := none,
                error := some "No valid data", note := none, method := none,
                condition_columns := none }
  else
    let valid_condition_cols := condition_cols.filter fun c =>
      c ∈ df.cols && valid.any fun rq => getCell rq.1 c ≠ Cell.null
    if valid_condition_cols.isEmpty then
      Except.ok { top_conditions := [], overall_best := none,
                  metric_stats := some { mean := qmean vals, max := qlistMax vals,
                                         min := qlistMin vals, std := lib.std vals,
                                         count := vals.length },
                  error := none, note := some "No condition columns with data",
                  method := none, condition_columns := none }
    else
      if method == "mean" ∨ method == "max" ∨ method == "median" then
        let agg : List ℚ → ℚ :=
          if method == "mean" then qmean else if method == "max" then qlistMax else qmedian
        let groups := groupByKey (fun rq => valid_condition_cols.map fun c => getCell rq.1 c) valid
        let scored := groups.map fun g =>
          let gvals := g.2.map Prod.snd
          ({ condition := valid_condition_cols.zip g.1, aggValue := agg gvals,
             sample_count := gvals.length } : PeakCondition)
        let sorted := scored.mergeSort fun a b => decide (b.aggValue ≤ a.aggValue)
        let top := sorted.take top_n
        Except.ok { top_conditions := top, overall_best := top.head?,
                    metric_stats := some { mean := qmean vals, max := qlistMax vals,
                                           min := qlistMin vals,
                                           std := if 1 < vals.length then lib.std vals else 0,
                                           count := vals.length },
                    error := none, note := none, method := some method,
                    condition_columns := some valid_condition_cols }
      else Except.error (sq ++ method ++ sq)

/-! ### Pathway enrichment (`pathway_tools.py`) -/

/-- Hypergeometric probability mass at `i` for population `M`, successes
`n`, draws `N`. -/
def hypergeomPMF (M n N i : ℕ) : ℚ :=
  ((n.choose i : ℚ) * ((M - n).choose (N - i) : ℚ)) / (M.choose N : ℚ)

/-- `P(X ≥ k)` for the hypergeometric distribution: exactly the quantity
`scipy.stats.hypergeom.sf(k - 1, M, n, N)` computed at `pathway_tools.py`
line 252. -/
def hypergeomSurv (k M n N : ℕ) : ℚ :=
  (((List.range (N + 1)).filter fun i => k ≤ i).map (hypergeomPMF M n N)).sum

/-- Result dict of `_calculate_enrichment`; the short-circuit branch omits
`background_size` and `overlap_genes`, mirrored by `Option` fields.
`p_adjusted` is added later by `_apply_fdr_correction`. -/
structure EnrichResult where
  pathway_id : String
  overlap_count : ℕ
  pathway_size : ℕ
  query_size : ℕ
  background_size : Option ℕ
  p_value : Option ℚ
  overlap_genes : Option (Finset String)
  p_adjusted : Option ℚ
deriving DecidableEq

/-- `_calculate_enrichment(query_genes, pathway_genes, background_genes,
pathway_id)` (`pathway_tools.py` lines 216-265). -/
def calculate_enrichment (scipyAvailable : Bool)
    (query_genes pathway_genes background_genes : Finset String)
    (pathway_id : String) : EnrichResult :=
  let M := background_genes.card
  let n := (pathway_genes ∩ background_genes).card
  let N := (query_genes ∩ background_genes).card
  let k := (query_genes ∩ pathway_genes).card
  if M = 0 ∨ n = 0 ∨ N = 0 then
    { pathway_id := pathway_id, overlap_count := k, pathway_size := n, query_size := N,
      background_size := none, p_value := none, overlap_genes := none, p_adjusted := none }
  else
    { pathway_id := pathway_id, overlap_count := k, pathway_size := n, query_size := N,
      background_size := some M,
      p_value := if scipyAvailable then some (hypergeomSurv k M n N) else none,
      overlap_genes := some (query_genes ∩ pathway_genes), p_adjusted := none }

/-- Ascending comparison on raw p-values, the key
`x.get("p_value", 1)` of `_apply_fdr_correction`. -/
def pLE (a b : EnrichResult) : Bool := decide (a.p_value.getD 1 ≤ b.p_value.getD 1)

/-- `_apply_fdr_correction(results)` (`pathway_tools.py` lines 268-287):
stable ascending sort by raw p-value, then
`p_adjusted = min(p * n / rank, 1.0)` at 1-based rank over that order. -/
def apply_fdr_correction (results : List EnrichResult) : List EnrichResult :=
  let n := results.length
  let sorted := results.mergeSort pLE
  sorted.enum.map fun ir =>
    match ir.2.p_value with
    | some p => { ir.2 with p_adjusted := some (min (p * n / (ir.1 + 1)) 1) }
    | none => { ir.2 with p_adjusted := none }

/-- Retention step of `get_kegg_pathways` (lines 119-127): keep the
pathways whose p-value was computed and falls below the threshold. -/
def enrich_filter (scipyAvailable : Bool) (query background : Finset String)
    (threshold : ℚ) (pathways : List (String × Finset String)) : List EnrichResult :=
  pathways.filterMap fun pw =>
    let r := calculate_enrichment scipyAvailable query pw.2 background pw.1
    match r.p_value with
    | some p => if p < threshold then some r else none
    | none => none

/-- The shared enrichment core of `get_kegg_pathways` (lines 115-133):
per-pathway hypergeometric test, retention below threshold, ascending sort
by raw p-value, Benjamini-Hochberg correction. -/
def enrich_pipeline (scipyAvailable : Bool) (pathways : List (String × Finset String))
    (query background : Finset String) (threshold : ℚ) : List EnrichResult :=
  apply_fdr_correction
    ((enrich_filter scipyAvailable query background threshold pathways).mergeSort pLE)

/-! ### JSON-like result payloads

Tool results are Python dicts; they are modelled as ordered key-value
objects so that key presence is observable. -/

/-- JSON-like value. -/
inductive JVal where
  | jNull : JVal
  | jStr : String → JVal
  | jNum : ℚ → JVal
  | jNat : ℕ → JVal
  | jBool : Bool → JVal
  | jArr : List JVal → JVal
  | jObj : List (String × JVal) → JVal

/-- The error dict `{"error": msg}`. -/
def errObj (msg : String) : JVal := JVal.jObj [("error", JVal.jStr msg)]

/-- Key lookup in an object (`dict.get`). -/
def JVal.getKey? (v : JVal) (k : String) : Option JVal :=
  match v with
  | JVal.jObj l => (l.find? fun p => p.1 == k).map fun p => p.2
  | _ => none

/-- `"error" in result` together with a required substring of the message:
states the "yields `{error}` containing ..." clauses. -/
def errorContains (v : JVal) (sub : String) : Bool :=
  match v.getKey? "error" with
  | some (JVal.jStr msg) => isSubstr sub msg
  | _ => false

/-- `Option ℚ` to JSON (`None` becomes `null`). -/
def optQ : Option ℚ → JVal
  | some q => JVal.jNum q
  | none => JVal.jNull

/-- Cell to JSON value, as produced by `to_dict(orient="records")`. -/
def cellJ : Cell → JVal
  | Cell.null => JVal.jNull
  | Cell.str s => JVal.jStr s
  | Cell.num q => JVal.jNum q

mutual
/-- `json.dumps` rendering (`default=str`); only ever treated as opaque
text by the claims. -/
def jvalDump : JVal → String
  | JVal.jNull => "null"
  | JVal.jStr s => "\"" ++ s ++ "\""
  | JVal.jNum q => ratToStr q
  | JVal.jNat n => natToStr n
  | JVal.jBool b => if b then "true" else "false"
  | JVal.jArr l => "[" ++ jvalDumpList l ++ "]"
  | JVal.jObj l => "\x7b" ++ jvalDumpObj l ++ "\x7d"

/-- Comma-separated rendering of an array body. -/
def jvalDumpList : List JVal → String
  | [] => ""
  | [x] => jvalDump x
  | x :: y :: xs => jvalDump x ++ ", " ++ jvalDumpList (y :: xs)

/-- Comma-separated rendering of an object body. -/
def jvalDumpObj : List (String × JVal) → String
  | [] => ""
  | [p] => "\"" ++ p.1 ++ "\": " ++ jvalDump p.2
  | p :: q :: xs => "\"" ++ p.1 ++ "\": " ++ jvalDump p.2 ++ ", " ++ jvalDumpObj (q :: xs)
end

/-! ### Tool arguments -/

/-- A tool-call argument value (the kinds used by the tool schemas). -/
inductive AVal where
  | aStr : String → AVal
  | aNum : ℚ → AVal
  | aNat : ℕ → AVal
  | aList : List String → AVal
deriving DecidableEq

/-- Argument dict. -/
abbrev Args : Type := List (String × AVal)

/-- `args.get(k)`. -/
def argGet? (a : Args) (k : String) : Option AVal :=
  (a.find? fun p => p.1 == k).map fun p => p.2

/-- `args[k]` for a string argument; a missing key raises `KeyError`,
whose `str()` rendering is the quoted key.  (A value of the wrong kind is
outside the tool schemas; it is reported as a type error.) -/
def argStr! (a : Args) (k : String) : Except String String :=
  match argGet? a k with
  | some (AVal.aStr s) => Except.ok s
  | some _ => Except.error ("TypeError: argument " ++ k)
  | none => Except.error (sq ++ k ++ sq)

/-- `args[k]` for a list-of-strings argument. -/
def argList! (a : Args) (k : String) : Except String (List String) :=
  match argGet? a k with
  | some (AVal.aList l) => Except.ok l
  | some _ => Except.error ("TypeError: argument " ++ k)
  | none => Except.error (sq ++ k ++ sq)

/-- `args[k]` for a numeric argument. -/
def argNum! (a : Args) (k : String) : Except String ℚ :=
  match argGet? a k with
  | some (AVal.aNum q) => Except.ok q
  | some (AVal.aNat n) => Except.ok n
  | some _ => Except.error ("TypeError: argument " ++ k)
  | none => Except.error (sq ++ k ++ sq)

/-- `args.get(k, d)` for a string argument. -/
def argStrD (a : Args) (k d : String) : String :=
  match argGet? a k with
  | some (AVal.aStr s) => s
  | _ => d

/-- `args.get(k, d)` for a numeric argument. -/
def argNumD (a : Args) (k : String) (d : ℚ) : ℚ :=
  match argGet? a k with
  | some (AVal.aNum q) => q
  | some (AVal.aNat n) => n
  | _ => d

/-- `args.get(k, d)` for an integer argument. -/
def argNatD (a : Args) (k : String) (d : ℕ) : ℕ :=
  match argGet? a k with
  | some (AVal.aNat n) => n
  | _ => d

/-- `args.get(k)` as an optional string (`None` when absent). -/
def argStrOpt (a : Args) (k : String) : Option String :=
  match argGet? a k with
  | some (AVal.aStr s) => some s
  | _ => none

/-- Python truthiness of an optional string (`if template_name:`). -/
def truthyOpt : Option String → Bool
  | some s => s != ""
  | none => false

/-! ### Graph and external-service oracle

The knowledge graph, the SPARQL template texts (declared out of scope by
the specification) and the network-backed enrichment services are
abstracted into an oracle: the tool layer is verified for every behaviour
of these collaborators. -/

/-- Lowercase a string (ASCII, as used on database/organism names). -/
def toLowerStr (s : String) : String :=
  String.mk (s.toList.map fun c => Char.ofNat (lowerNat c.toNat))

/-- External collaborators of the tool executor. -/
structure GraphOracle where
  /-- keys of `SPARQL_TEMPLATES`. -/
  templateNames : List String
  /-- the formatted query text of a known template given the final filter
  clause (template text itself is out of scope). -/
  templateText : String → String → String
  /-- `graph.query` materialized as a table of string-or-missing cells. -/
  query : String → DataFrame
  /-- wire result of `get_kegg_pathways(gene_list, org, pvalue_threshold)`
  (network-backed; always a dict, exceptions are caught inside). -/
  keggResult : List String → String → ℚ → JVal
  /-- wire result of `get_reactome_pathways(gene_list, species, threshold)`. -/
  reactomeResult : List String → String → ℚ → JVal

/-- `s.strip().upper().startswith(kw)` for an upper-case keyword `kw`. -/
def startsKw (kw s : String) : Bool :=
  isPreCI kw.toList (s.toList.dropWhile Char.isWhitespace)

/-- The `PREFIXES` block of `sparql_templates.py`. -/
def sparqlPrefixes : String :=
  "\nPREFIX mcbo: <http://example.org/mcbo#>\nPREFIX rdfs: <http://www.w3.org/2000/01/rdf-schema#>\nPREFIX ro: <http://purl.obolibrary.org/obo/RO_>\nPREFIX bfo: <http://purl.obolibrary.org/obo/BFO_>\nPREFIX uo: <http://purl.obolibrary.org/obo/>\nPREFIX xsd: <http://www.w3.org/2001/XMLSchema#>\n"

/-- `format_template(template_name, filter_clause)`
(`sparql_templates.py` lines 293-321): unknown names raise `KeyError`; a
nonempty filter clause not starting with `FILTER` is wrapped. -/
def format_template (oracle : GraphOracle) (template_name filter_clause : String) :
    Except String String :=
  if template_name ∈ oracle.templateNames then
    let fc :=
      if filter_clause != "" then
        if startsKw "FILTER" filter_clause then filter_clause
        else "FILTER(" ++ filter_clause ++ ")"
      else filter_clause
    Except.ok (oracle.templateText template_name fc)
  else
    Except.error ("Unknown template " ++ sq ++ template_name ++ sq ++ ". Available: " ++
      String.intercalate ", " (oracle.templateNames.mergeSort fun a b => !decide (b < a)))

/-- `ORGANISM_CODES` (`pathway_tools.py` lines 40-45). -/
def ORGANISM_CODES : List (String × String) :=
  [("human", "hsa"), ("mouse", "mmu"), ("rat", "rno"), ("hamster", "cge")]

/-- `get_pathway_enrichment(gene_list, database, organism,
pvalue_threshold)` (`pathway_tools.py` lines 386-416). -/
def get_pathway_enrichment (oracle : GraphOracle) (gene_list : List String)
    (database : String := "kegg") (organism : String := "hsa")
    (pvalue_threshold : ℚ := 1/20) : JVal :=
  if toLowerStr database == "kegg" then
    let org :=
      match ORGANISM_CODES.find? fun p => p.1 == toLowerStr organism with
      | some p => p.2
      | none => organism
    oracle.keggResult gene_list org pvalue_threshold
  else if toLowerStr database == "reactome" then
    let species := if organism == "hsa" then "Homo sapiens" else organism
    oracle.reactomeResult gene_list species pvalue_threshold
  else
    JVal.jObj [("enriched_pathways", JVal.jArr []),
      ("error", JVal.jStr ("Unknown database: " ++ database ++ ". Use " ++ sq ++ "kegg" ++
        sq ++ " or " ++ sq ++ "reactome" ++ sq ++ "."))]

/-! ### Tool executor (`tools.py` lines 262-457) -/

/-- Per-session analytical state: the working table and the cached
differential-expression results. -/
structure ExecState where
  current_df : Option DataFrame
  de_results : Option (List DEResult)
deriving DecidableEq

/-- The fresh executor state (`ToolExecutor.__init__`). -/
def initState : ExecState := { current_df := none, de_results := none }

/-- `self.current_df is None or self.current_df.empty`. -/
def noData (st : ExecState) : Bool :=
  match st.current_df with
  | none => true
  | some df => df.rows.isEmpty

/-- The shared "no data loaded" error dict. -/
def noDataErr : JVal := errObj "No data loaded. Run execute_sparql first."

/-- The working table (call sites are guarded by `noData`). -/
def dfOf (st : ExecState) : DataFrame := st.current_df.getD { cols := [], rows := [] }

/-- A row rendered by `to_dict(orient="records")`. -/
def rowToJ (cols : List String) (r : Row) : JVal :=
  JVal.jObj (cols.map fun c => (c, cellJ (getCell r c)))

/-- `_tool_execute_sparql` (`tools.py` lines 294-329). -/
def tool_execute_sparql (oracle : GraphOracle) (st : ExecState) (args : Args) :
    ExecState × Except String JVal :=
  let template_name := argStrOpt args "template_name"
  let raw_query := argStrOpt args "raw_query"
  let filter_clause := argStrD args "filter_clause" ""
  let runQ : String → ExecState × Except String JVal := fun q =>
    let df := oracle.query q
    ({ st with current_df := some df },
     Except.ok (JVal.jObj
       [("row_count", JVal.jNat df.rows.length),
        ("columns", JVal.jArr (df.cols.map JVal.jStr)),
        ("sample_rows", JVal.jArr ((df.rows.take 10).map (rowToJ df.cols)))]))
  if truthyOpt template_name then
    match format_template oracle (template_name.getD "") filter_clause with
    | Except.error e => (st, Except.error e)
    | Except.ok q => runQ q
  else if truthyOpt raw_query then
    let rq := raw_query.getD ""
    runQ (if startsKw "PREFIX" rq then rq else sparqlPrefixes ++ rq)
  else (st, Except.ok (errObj "Provide either template_name or raw_query"))

/-- Result dict of `compute_correlation` as returned to the model. -/
def corrToJ (r : CorrResult) : JVal :=
  JVal.jObj
    ([("correlation", optQ r.correlation), ("p_value", optQ r.p_value),
      ("n_samples", JVal.jNat r.n_samples), ("method", JVal.jStr r.method),
      ("significant", JVal.jBool r.significant)] ++
      (match r.error with
       | some e => [("error", JVal.jStr e)]
       | none => []))

/-- `_tool_compute_correlation` (`tools.py` lines 331-340). -/
def tool_compute_correlation (lib : StatsLib) (st : ExecState) (args : Args) :
    ExecState × Except String JVal :=
  if noData st then (st, Except.ok noDataErr)
  else
    match argStr! args "x_col" with
    | Except.error e => (st, Except.error e)
    | Except.ok x =>
      match argStr! args "y_col" with
      | Except.error e => (st, Except.error e)
      | Except.ok y =>
        let method := argStrD args "method" "pearson"
        (st, Except.ok (corrToJ (compute_correlation lib (dfOf st) x y method 3)))

/-- Result dict of `compute_fold_change` as returned to the model (the
error branch omits the `log2` key). -/
def fcToJ (r : FoldChangeResult) : JVal :=
  match r.error with
  | some e =>
      JVal.jObj
        [("fold_change", optQ r.fold_change), ("mean_group1", optQ r.mean_group1),
         ("mean_group2", optQ r.mean_group2), ("n_group1", JVal.jNat r.n_group1),
         ("n_group2", JVal.jNat r.n_group2), ("p_value", optQ r.p_value),
         ("significant", JVal.jBool r.significant), ("error", JVal.jStr e)]
  | none =>
      JVal.jObj
        [("fold_change", optQ r.fold_change), ("log2", JVal.jBool r.log2),
         ("mean_group1", optQ r.mean_group1), ("mean_group2", optQ r.mean_group2),
         ("n_group1", JVal.jNat r.n_group1), ("n_group2", JVal.jNat r.n_group2),
         ("p_value", optQ r.p_value), ("significant", JVal.jBool r.significant)]

/-- `_tool_compute_fold_change` (`tools.py` lines 342-353). -/
def tool_compute_fold_change (lib : StatsLib) (st : ExecState) (args : Args) :
    ExecState × Except String JVal :=
  if noData st then (st, Except.ok noDataErr)
  else
    match argStr! args "group_col" with
    | Except.error e => (st, Except.error e)
    | Except.ok gc =>
      match argStr! args "value_col" with
      | Except.error e => (st, Except.error e)
      | Except.ok vc =>
        match argStr! args "group1" with
        | Except.error e => (st, Except.error e)
        | Except.ok g1 =>
          match argStr! args "group2" with
          | Except.error e => (st, Except.error e)
          | Except.ok g2 =>
            (st, Except.ok (fcToJ (compute_fold_change lib (dfOf st) gc vc g1 g2)))

/-- One `top_conditions` entry as a dict. -/
def pcToJ (metric_col method : String) (pc : PeakCondition) : JVal :=
  JVal.jObj
    ((pc.condition.map fun p => (p.1, cellJ p.2)) ++
     [(metric_col ++ "_" ++ method, JVal.jNum pc.aggValue),
      ("sample_count", JVal.jNat pc.sample_count)])

/-- `metric_stats` as a dict. -/
def msToJ (ms : MetricStats) : JVal :=
  JVal.jObj
    [("mean", JVal.jNum ms.mean), ("max", JVal.jNum ms.max), ("min", JVal.jNum ms.min),
     ("std", JVal.jNum ms.std), ("count", JVal.jNat ms.count)]

/-- Result dict of `find_peak_conditions` as returned to the model. -/
def peakToJ (metric_col method : String) (pr : PeakResult) : JVal :=
  JVal.jObj
    ([("top_conditions", JVal.jArr (pr.top_conditions.map (pcToJ metric_col method))),
      ("overall_best",
        match pr.overall_best with
        | some pc => pcToJ metric_col method pc
        | none => JVal.jNull),
      ("metric_stats",
        match pr.metric_stats with
        | some ms => msToJ ms
        | none => JVal.jNull)] ++
      (match pr.error with | some e => [("error", JVal.jStr e)] | none => []) ++
      (match pr.note with | some s => [("note", JVal.jStr s)] | none => []) ++
      (match pr.method with | some s => [("method", JVal.jStr s)] | none => []) ++
      (match pr.condition_columns with
       | some l => [("condition_columns", JVal.jArr (l.map JVal.jStr))]
       | none => []))

/-- `_tool_find_peak_conditions` (`tools.py` lines 355-366). -/
def tool_find_peak_conditions (lib : StatsLib) (st : ExecState) (args : Args) :
    ExecState × Except String JVal :=
  if noData st then (st, Except.ok noDataErr)
  else
    match argList! args "condition_cols" with
    | Except.error e => (st, Except.error e)
    | Except.ok cols =>
      match argStr! args "metric_col" with
      | Except.error e => (st, Except.error e)
      | Except.ok mc =>
        let method := argStrD args "method" "mean"
        let top_n := argNatD args "top_n" 5
        match find_peak_conditions lib (dfOf st) cols mc method top_n with
        | Except.error e => (st, Except.error e)
        | Except.ok pr => (st, Except.ok (peakToJ mc method pr))

/-- `_tool_filter_by_threshold` (`tools.py` lines 368-383). -/
def tool_filter_by_threshold (st : ExecState) (args : Args) :
    ExecState × Except String JVal :=
  if noData st then (st, Except.ok noDataErr)
  else
    match argStr! args "col" with
    | Except.error e => (st, Except.error e)
    | Except.ok col =>
      match argStr! args "op" with
      | Except.error e => (st, Except.error e)
      | Except.ok op =>
        match argNum! args "value" with
        | Except.error e => (st, Except.error e)
        | Except.ok v =>
          match filter_by_threshold (dfOf st) col op v with
          | Except.error e => (st, Except.error e)
          | Except.ok df2 =>
              ({ st with current_df := some df2 },
               Except.ok (JVal.jObj
                 [("remaining_rows", JVal.jNat df2.rows.length),
                  ("sample_rows", JVal.jArr ((df2.rows.take 5).map (rowToJ df2.cols)))]))

/-- One differential-expression row as a dict. -/
def deToJ (r : DEResult) : JVal :=
  JVal.jObj
    [("gene", cellJ r.gene), ("log2FoldChange", optQ r.log2FoldChange),
     ("mean_group1", optQ r.mean_group1), ("mean_group2", optQ r.mean_group2),
     ("n_group1", JVal.jNat r.n_group1), ("n_group2", JVal.jNat r.n_group2),
     ("pvalue", optQ r.pvalue), ("significant", JVal.jBool r.significant),
     ("direction",
       match r.direction with
       | some d => JVal.jStr d
       | none => JVal.jNull)]

/-- `_tool_differential_expression` (`tools.py` lines 385-410). -/
def tool_differential_expression (lib : StatsLib) (st : ExecState) (args : Args) :
    ExecState × Except String JVal :=
  if noData st then (st, Except.ok noDataErr)
  else
    match argStr! args "group_col" with
    | Except.error e => (st, Except.error e)
    | Except.ok gc =>
      match argStr! args "group1" with
      | Except.error e => (st, Except.error e)
      | Except.ok g1 =>
        match argStr! args "group2" with
        | Except.error e => (st, Except.error e)
        | Except.ok g2 =>
          let de := differential_expression lib (dfOf st) gc g1 g2
            (argStrD args "gene_col" "gene") (argStrD args "value_col" "expressionValue")
            (argNumD args "log2fc_threshold" 1) (argNumD args "pvalue_threshold" (1/20))
            (argStrOpt args "cell_line") "cellLineLabel"
          let sig := de.filter fun r => r.significant
          ({ st with de_results := some de },
           Except.ok (JVal.jObj
             [("total_genes", JVal.jNat de.length),
              ("significant_genes", JVal.jNat sig.length),
              ("upregulated", JVal.jNat (sig.filter fun r => r.direction == some "up").length),
              ("downregulated", JVal.jNat (sig.filter fun r => r.direction == some "down").length),
              ("top_genes", JVal.jArr ((de.take 10).map deToJ))]))

/-- `_tool_get_pathway_enrichment` (`tools.py` lines 412-419). -/
def tool_get_pathway_enrichment (oracle : GraphOracle) (st : ExecState) (args : Args) :
    ExecState × Except String JVal :=
  match argList! args "gene_list" with
  | Except.error e => (st, Except.error e)
  | Except.ok gl =>
      (st, Except.ok (get_pathway_enrichment oracle gl (argStrD args "database" "kegg")
        (argStrD args "organism" "hsa") (argNumD args "pvalue_threshold" (1/20))))

/-- One `summarize_by_group` row as a dict. -/
def gsToJ (g : GroupSummary) : JVal :=
  JVal.jObj
    [(("" ++ "group"), cellJ g.group), ("mean", JVal.jNum g.mean), ("std", JVal.jNum g.std),
     ("count", JVal.jNat g.count), ("min", JVal.jNum g.min), ("max", JVal.jNum g.max)]

/-- `_tool_summarize_by_group` (`tools.py` lines 421-435). -/
def tool_summarize_by_group (lib : StatsLib) (st : ExecState) (args : Args) :
    ExecState × Except String JVal :=
  if noData st then (st, Except.ok noDataErr)
  else
    match argStr! args "group_col" with
    | Except.error e => (st, Except.error e)
    | Except.ok gc =>
      match argStr! args "value_col" with
      | Except.error e => (st, Except.error e)
      | Except.ok vc =>
        let summary := summarize_by_group lib (dfOf st) gc vc
        (st, Except.ok (JVal.jObj
          [("groups", JVal.jNat summary.length),
           ("summary", JVal.jArr (summary.map gsToJ))]))

/-- `_tool_get_significant_genes` (`tools.py` lines 437-456). -/
def tool_get_significant_genes (st : ExecState) (args : Args) :
    ExecState × Except String JVal :=
  let noDE : Bool :=
    match st.de_results with
    | none => true
    | some de => de.isEmpty
  if noDE then (st, Except.ok (errObj "No DE results. Run differential_expression first."))
  else
    let de := st.de_results.getD []
    let direction := argStrD args "direction" "both"
    let sig := de.filter fun r => r.significant
    let sig2 :=
      if direction == "up" then sig.filter fun r => r.direction == some "up"
      else if direction == "down" then sig.filter fun r => r.direction == some "down"
      else sig
    (st, Except.ok (JVal.jObj
      [("gene_count", JVal.jNat sig2.length),
       ("genes", JVal.jArr (sig2.map fun r => cellJ r.gene))]))

/-- The tool names with a `_tool_<name>` handler
(the `hasattr` dispatch of `ToolExecutor.execute`). -/
def knownToolNames : List String :=
  ["execute_sparql", "compute_correlation", "compute_fold_change", "find_peak_conditions",
   "filter_by_threshold", "differential_expression", "get_pathway_enrichment",
   "summarize_by_group", "get_significant_genes"]

/-- The six WorkingTable-reading analytic tools (each guarded by the
"No data loaded" precondition). -/
def readingToolNames : List String :=
  ["compute_correlation", "compute_fold_change", "find_peak_conditions",
   "filter_by_threshold", "differential_expression", "summarize_by_group"]

/-- The body of the handler `_tool_<name>` for a known tool name (the
trailing branch is `get_significant_genes`; `execute` consults
`knownToolNames` first). -/
def runTool (lib : StatsLib) (oracle : GraphOracle) (st : ExecState)
    (name : String) (args : Args) : ExecState × Except String JVal :=
  if name == "execute_sparql" then tool_execute_sparql oracle st args
  else if name == "compute_correlation" then tool_compute_correlation lib st args
  else if name == "compute_fold_change" then tool_compute_fold_change lib st args
  else if name == "find_peak_conditions" then tool_find_peak_conditions lib st args
  else if name == "filter_by_threshold" then tool_filter_by_threshold st args
  else if name == "differential_expression" then tool_differential_expression lib st args
  else if name == "get_pathway_enrichment" then tool_get_pathway_enrichment oracle st args
  else if name == "summarize_by_group" then tool_summarize_by_group lib st args
  else tool_get_significant_genes st args

/-- `ToolExecutor.execute(tool_name, arguments)` (`tools.py` lines
275-292): unknown names give a structured error; an exception raised in a
tool body is caught at this boundary and returned as `{"error": str(e)}`.
The function is total: no fault escapes it. -/
def execute (lib : StatsLib) (oracle : GraphOracle) (st : ExecState)
    (tool_name : String) (args : Args) : JVal × ExecState :=
  if tool_name ∈ knownToolNames then
    match runTool lib oracle st tool_name args with
    | (st2, Except.ok v) => (v, st2)
    | (st2, Except.error e) => (errObj e, st2)
  else (errObj ("Unknown tool: " ++ tool_name), st)

/-! ### Canonical conversation shape (`orchestrator.py`)

The conversation history the orchestrator builds and each provider
translates.  A provider is abstracted as a function of the message history
(the fixed system prompt and tool catalog, constant within a session, are
elided from its arguments). -/

/-- A content block of a conversation turn. -/
inductive Block where
  | text : String → Block
  | toolUse : String → String → Args → Block
  | toolResult : String → String → Block

/-- Turn content: plain text or an ordered block sequence. -/
inductive MsgContent where
  | str : String → MsgContent
  | blocks : List Block → MsgContent

/-- One conversation turn. -/
structure Message where
  role : String
  content : MsgContent

/-- A tool call extracted from a provider response. -/
structure ToolCall where
  id : String
  name : String
  arguments : Args

/-- The canonical provider response
(`{content, tool_calls, stop_reason}`). -/
structure Response where
  content : String
  toolCalls : List ToolCall
  stopReason : String

/-- A provider: `create_message` as a function of the history. -/
abbrev Provider : Type := List Message → Response

/-- `AgentOrchestrator._summarize_result` (`orchestrator.py` lines
759-771).  Float formatting (`:.3f` / `:.2f`) and the exact `str(dict)`
rendering are opaque text to every claim.  Note the Python truthiness
tests: a coefficient of exactly `0` summarizes as "No correlation". -/
def summarize_result (r : JVal) : String :=
  if (r.getKey? "error").isSome then
    "Error: " ++
      (match r.getKey? "error" with
       | some (JVal.jStr s) => s
       | _ => "")
  else if (r.getKey? "row_count").isSome then
    (match r.getKey? "row_count" with
     | some (JVal.jNat n) => natToStr n
     | _ => "") ++ " rows returned"
  else if (r.getKey? "correlation").isSome then
    match r.getKey? "correlation" with
    | some (JVal.jNum q) => if q ≠ 0 then "r=" ++ ratToStr q else "No correlation"
    | _ => "No correlation"
  else if (r.getKey? "fold_change").isSome then
    match r.getKey? "fold_change" with
    | some (JVal.jNum q) => if q ≠ 0 then "FC=" ++ ratToStr q else "No fold change"
    | _ => "No fold change"
  else if (r.getKey? "enriched_pathways").isSome then
    (match r.getKey? "enriched_pathways" with
     | some (JVal.jArr l) => natToStr l.length
     | _ => "") ++ " enriched pathways"
  else String.mk ((jvalDump r).toList.take 100)

/-- An entry of the flat `tool_call_history` list. -/
structure CallRecord where
  tool : String
  arguments : Args
  result_summary : String

/-- The result dict of `answer_question` / `answer_cq`; optional fields
mirror key presence in the returned dict. -/
structure AgentResult where
  answer : Option String
  tool_calls : Option (List CallRecord)
  iterations : Option ℕ
  warning : Option String
  error : Option String

/-- Sequential execution of the tool calls of one turn (`orchestrator.py`
lines 706-726): threads executor state, records a `CallRecord` per call and
collects `(id, name, result)` triples for the tool-result turn. -/
def execCalls (lib : StatsLib) (oracle : GraphOracle) (st : ExecState) :
    List ToolCall → ExecState × List CallRecord × List (String × JVal)
  | [] => (st, [], [])
  | c :: rest =>
      let r := execute lib oracle st c.name c.arguments
      let next := execCalls lib oracle r.2 rest
      (next.1,
       { tool := c.name, arguments := c.arguments,
         result_summary := summarize_result r.1 } :: next.2.1,
       (c.id, r.1) :: next.2.2)

/-- The assistant turn content appended after a tool-requesting response
(`orchestrator.py` lines 729-740): the text block (when content is
nonempty) followed by one `tool_use` block per call. -/
def assistantContent (resp : Response) : List Block :=
  (if resp.content != "" then [Block.text resp.content] else []) ++
    resp.toolCalls.map fun tc => Block.toolUse tc.id tc.name tc.arguments

/-- The user turn carrying the tool results (`orchestrator.py` lines
743-750), each serialized with `json.dumps`. -/
def toolResultBlocks (resp : Response) (trs : List (String × JVal)) : List Block :=
  (trs.zip resp.toolCalls).map fun t => Block.toolResult t.1.1 (jvalDump t.1.2)

/-- The initial history: the user question. -/
def userMsg (question : String) : Message :=
  { role := "user", content := MsgContent.str question }

/-- The two turns appended at the end of one tool-calling iteration. -/
def turnMessages (resp : Response) (trs : List (String × JVal)) : List Message :=
  [{ role := "assistant", content := MsgContent.blocks (assistantContent resp) },
   { role := "user", content := MsgContent.blocks (toolResultBlocks resp trs) }]

/-- The `for iteration in range(self.max_iterations)` loop of
`answer_question` (`orchestrator.py` lines 682-757), by countdown on the
remaining iterations.  With `max_iterations = 0` the loop body never runs
and the final `return` reads the unbound local `response`: a `NameError`
escapes, modelled as `Except.error`. -/
def answerLoop (lib : StatsLib) (oracle : GraphOracle) (provider : Provider)
    (max_iterations : ℕ) :
    ℕ → List Message → List CallRecord → ExecState → Except String AgentResult
  | 0, _, _, _ =>
      Except.error ("NameError: name " ++ sq ++ "response" ++ sq ++ " is not defined")
  | f + 1, msgs, hist, st =>
      let resp := provider msgs
      if resp.toolCalls.isEmpty then
        Except.ok { answer := some resp.content, tool_calls := some hist,
                    iterations := some (max_iterations - f), warning := none, error := none }
      else
        let step := execCalls lib oracle st resp.toolCalls
        let hist2 := hist ++ step.2.1
        let msgs2 := msgs ++ turnMessages resp step.2.2
        match f with
        | 0 =>
            Except.ok { answer := some ("Maximum iterations reached. Partial answer: " ++
                          resp.content),
                        tool_calls := some hist2, iterations := some max_iterations,
                        warning := some "Max iterations reached", error := none }
        | f2 + 1 => answerLoop lib oracle provider max_iterations (f2 + 1) msgs2 hist2 step.1

/-- `AgentOrchestrator.answer_question(question)` (`orchestrator.py` lines
670-757). -/
def answer_question (lib : StatsLib) (oracle : GraphOracle) (provider : Provider)
    (max_iterations : ℕ) (question : String) : Except String AgentResult :=
  answerLoop lib oracle provider max_iterations max_iterations [userMsg question] [] initState

/-- One iteration of the session, as a plain state transformer on
`(history, call records, executor state)`: used to name "the n-th provider
response" independently of the loop.  (It applies the tool-dispatch step
unconditionally; the loop exits instead when the tool-call list is empty.) -/
def sessionStep (lib : StatsLib) (oracle : GraphOracle) (provider : Provider) :
    List Message × List CallRecord × ExecState →
    List Message × List CallRecord × ExecState := fun s =>
  let resp := provider s.1
  let step := execCalls lib oracle s.2.2 resp.toolCalls
  (s.1 ++ turnMessages resp step.2.2, s.2.1 ++ step.2.1, step.1)

/-- The session state before the `(n+1)`-st provider call. -/
def sessionState (lib : StatsLib) (oracle : GraphOracle) (provider : Provider)
    (question : String) (n : ℕ) : List Message × List CallRecord × ExecState :=
  (sessionStep lib oracle provider)^[n] ([userMsg question], [], initState)

/-- `CQ_DESCRIPTIONS` (`orchestrator.py` lines 22-31). -/
def CQ_DESCRIPTIONS : List (String × String) :=
  [("CQ1", "Under what culture conditions (pH, dissolved oxygen, temperature) do the cells reach peak recombinant protein productivity?"),
   ("CQ2", "Which cell lines have been engineered to overexpress gene Y?"),
   ("CQ3", "Which nutrient concentrations in cell line K are most associated with viable cell density above Z at day 6 of culture?"),
   ("CQ4", "How does the expression of gene X vary between clone A and clone B?"),
   ("CQ5", "What pathways are differentially expressed under Fed-batch vs Perfusion in cell line K?"),
   ("CQ6", "Which are the top genes correlated with recombinant protein productivity in the stationary phase of all experiments?"),
   ("CQ7", "Which genes have the highest fold change between cells with viability (>90%) and those without (<50%)?"),
   ("CQ8", "Which cell lines or subclones are best suited for glycosylation profiles required for therapeutic protein X?")]

/-- `str.replace(pat, rep)` for a nonempty pattern (kernel-computable). -/
def replaceAux (pat rep : List Char) : ℕ → List Char → List Char
  | 0, l => l
  | _, [] => []
  | fuel + 1, h :: t =>
      if pat ≠ [] ∧ isPreExact pat (h :: t) = true then
        rep ++ replaceAux pat rep fuel (List.drop pat.length (h :: t))
      else h :: replaceAux pat rep fuel t

/-- `s.replace(pat, rep)`. -/
def strReplace (s pat rep : String) : String :=
  String.mk (replaceAux pat.toList rep.toList (s.toList.length + 1) s.toList)

/-- `AgentOrchestrator.answer_cq(cq_id, parameters)` (`orchestrator.py`
lines 645-668): resolve one of the eight canned questions, substitute
parameters, delegate to `answer_question`. -/
def answer_cq (lib : StatsLib) (oracle : GraphOracle) (provider : Provider)
    (max_iterations : ℕ) (cq_id : String) (parameters : List (String × String)) :
    Except String AgentResult :=
  let cq_upper := toUpperStr cq_id
  match CQ_DESCRIPTIONS.find? (fun p => p.1 == cq_upper) with
  | none =>
      Except.ok { answer := none, tool_calls := none, iterations := none, warning := none,
                  error := some ("Unknown CQ: " ++ cq_id ++ ". Valid: [" ++
                    String.intercalate ", "
                      (CQ_DESCRIPTIONS.map fun p => sq ++ p.1 ++ sq) ++ "]") }
  | some p =>
      let description := parameters.foldl
        (fun d kv =>
          let d1 := strReplace d ("gene " ++ toUpperStr kv.1) ("gene " ++ kv.2)
          let d2 := strReplace d1 ("clone " ++ toUpperStr kv.1) ("clone " ++ kv.2)
          strReplace d2 ("cell line " ++ toUpperStr kv.1) ("cell line " ++ kv.2))
        p.2
      answer_question lib oracle provider max_iterations description

/-! ### Concrete instances used to witness the theorems -/

/-- A concrete statistics oracle: `log2` is order-faithful on either side
of 1 (as the real `log2` is), the other routines are constant. -/
def testLib : StatsLib :=
  { scipyAvailable := true, log2 := fun q => q - 1, ttest_ind := fun _ _ => 1/100,
    pearsonr := fun _ => (1/2, 1/100), spearmanr := fun _ => (9/10, 1/50),
    corrFallback := fun _ _ => 1/2, std := fun _ => 0 }

/-- A concrete collaborator oracle whose knowledge graph returns an empty
result table for every query. -/
def testOracle : GraphOracle :=
  { templateNames := ["all_genes", "culture_conditions_productivity"],
    templateText := fun _ _ => "SELECT",
    query := fun _ => { cols := ["gene", "expressionValue"], rows := [] },
    keggResult := fun _ _ _ => JVal.jObj [("enriched_pathways", JVal.jArr [])],
    reactomeResult := fun _ _ _ => JVal.jObj [("enriched_pathways", JVal.jArr [])] }

/-- The fold-change example table: groups A=[10,12,11], B=[5,6,4]. -/
def dfAB : DataFrame :=
  { cols := ["group", "value"],
    rows := [[("group", Cell.str "A"), ("value", Cell.num 10)],
             [("group", Cell.str "A"), ("value", Cell.num 12)],
             [("group", Cell.str "A"), ("value", Cell.num 11)],
             [("group", Cell.str "B"), ("value", Cell.num 5)],
             [("group", Cell.str "B"), ("value", Cell.num 6)],
             [("group", Cell.str "B"), ("value", Cell.num 4)]] }

/-- The downregulation example table: groups A=[5,5], B=[20,20]. -/
def dfAB2 : DataFrame :=
  { cols := ["group", "value"],
    rows := [[("group", Cell.str "A"), ("value", Cell.num 5)],
             [("group", Cell.str "A"), ("value", Cell.num 5)],
             [("group", Cell.str "B"), ("value", Cell.num 20)],
             [("group", Cell.str "B"), ("value", Cell.num 20)]] }

/-- A two-column numeric table with one missing value. -/
def dfXY : DataFrame :=
  { cols := ["x", "y"],
    rows := [[("x", Cell.num 1), ("y", Cell.num 2)],
             [("x", Cell.num 2), ("y", Cell.num 4)],
             [("x", Cell.num 3), ("y", Cell.null)],
             [("x", Cell.num 4), ("y", Cell.num 8)]] }

/-- A provider that always answers with empty content and no tool calls. -/
def emptyContentProvider : Provider :=
  fun _ => { content := "", toolCalls := [], stopReason := "end_turn" }

/-- A provider that always returns a final text answer. -/
def doneProvider : Provider :=
  fun _ => { content := "The answer is 42.", toolCalls := [], stopReason := "end_turn" }

/-- A provider that requests one query tool call on every turn. -/
def loopingProvider : Provider :=
  fun _ => { content := "querying",
             toolCalls := [{ id := "c1", name := "execute_sparql",
                             arguments := [("template_name", AVal.aStr "all_genes")] }],
             stopReason := "tool_use" }

/-- An executor state whose working table is loaded and nonempty. -/
def stLoaded : ExecState := { current_df := some dfXY, de_results := none }

/-- The user-visible contract as literally claimed: the result carries a
non-empty `answer` value or an `error` key. -/
def hasNonemptyAnswerOrError (r : AgentResult) : Prop :=
  (∃ s, r.answer = some s ∧ s ≠ "") ∨ r.error ≠ none

/-- A single-gene expression table whose group labels match neither
requested group (used to witness the differential-expression claim). -/
def dfDE : DataFrame :=
  { cols := ["gene", "processType", "expressionValue"],
    rows := [[("gene", Cell.str "G1"), ("processType", Cell.str "X"),
              ("expressionValue", Cell.num 1)]] }

/-! ## Helper lemmas -/

theorem isPreExact_append (l r : List Char) : isPreExact l (l ++ r) = true := by
  induction l with
  | nil => rfl
  | cons a as ih => simp [isPreExact, ih]

theorem isSubExact_of_pre {p h : List Char} (hp : isPreExact p h = true) :
    isSubExact p h = true := by
  cases h with
  | nil =>
      cases p with
      | nil => rfl
      | cons a as => simp [isPreExact] at hp
  | cons b bs => simp [isSubExact, hp]

theorem isSubstr_self_append (p t : String) : isSubstr p (p ++ t) = true := by
  have hl : (p ++ t).toList = p.toList ++ t.toList := by
    simp [String.toList]
  rw [isSubstr, hl]
  exact isSubExact_of_pre (isPreExact_append _ _)

theorem errorContains_errObj (msg sub : String) :
    errorContains (errObj msg) sub = isSubstr sub msg := rfl

theorem mem_mergeSort {α : Type} (le : α → α → Bool) (l : List α) (a : α) :
    a ∈ l.mergeSort le ↔ a ∈ l :=
  (List.mergeSort_perm l le).mem_iff

/-- Any reading tool dispatched while `noData` holds returns the shared
"No data loaded" error and leaves the state unchanged. -/
theorem execute_reading_noData (lib : StatsLib) (oracle : GraphOracle) (st : ExecState)
    (name : String) (args : Args) (h : noData st = true) (hname : name ∈ readingToolNames) :
    execute lib oracle st name args = (noDataErr, st) := by
  fin_cases hname <;>
    simp [execute, runTool, knownToolNames, tool_compute_correlation, tool_compute_fold_change,
      tool_find_peak_conditions, tool_filter_by_threshold, tool_differential_expression,
      tool_summarize_by_group, h]

/-! ## Claims -/

/-- C5: for every tool name and argument dict, `ToolExecutor.execute`
never raises: a name absent from the registry of `_tool_` handlers returns
`{"error": "Unknown tool: <name>"}`, and an exception raised inside a tool
body (an `Except.error` of the body) is caught at the dispatch boundary
and returned as `{"error": str(exception)}` with the state reached by the
body.  (`execute` is a total function of the embedding: no fault escapes.) -/
theorem C5_dispatch_never_raises (lib : StatsLib) (oracle : GraphOracle) (st : ExecState)
    (name : String) (args : Args) :
    (name ∉ knownToolNames →
      execute lib oracle st name args = (errObj ("Unknown tool: " ++ name), st) ∧
      errorContains (execute lib oracle st name args).1 "Unknown tool" = true) ∧
    (∀ st2 e, name ∈ knownToolNames →
      runTool lib oracle st name args = (st2, Except.error e) →
      execute lib oracle st name args = (errObj e, st2)) := by
  constructor
  · intro h
    have hex : execute lib oracle st name args = (errObj ("Unknown tool: " ++ name), st) := by
      simp [execute, h]
    refine ⟨hex, ?_⟩
    rw [hex]
    exact isSubstr_self_append "Unknown tool" (": " ++ name)
  · intro st2 e hmem hrun
    simp [execute, hmem, hrun]

theorem C5_dispatch_never_raises_witness :
    execute testLib testOracle initState "bogus" [] =
      (errObj ("Unknown tool: " ++ "bogus"), initState) ∧
    execute testLib testOracle stLoaded "compute_correlation" [] =
      (errObj (sq ++ "x_col" ++ sq), stLoaded) :=
  ⟨((C5_dispatch_never_raises testLib testOracle initState "bogus" []).1 (by decide)).1,
   (C5_dispatch_never_raises testLib testOracle stLoaded "compute_correlation" []).2
     stLoaded (sq ++ "x_col" ++ sq) (by decide) (by rfl)⟩

/-- C6: on an executor whose WorkingTable is undefined (no query tool has
run), every WorkingTable-reading tool returns the `{"error"}` dict whose
message contains "No data loaded", never raises (`execute` is total) and
leaves the state unchanged. -/
theorem C6_reading_before_query (lib : StatsLib) (oracle : GraphOracle) (st : ExecState)
    (name : String) (args : Args) (hdf : st.current_df = none)
    (hname : name ∈ readingToolNames) :
    execute lib oracle st name args = (noDataErr, st) ∧
    errorContains noDataErr "No data loaded" = true := by
  refine ⟨execute_reading_noData lib oracle st name args ?_ hname, by decide⟩
  simp [noData, hdf]

theorem C6_reading_before_query_witness :
    execute testLib testOracle initState "differential_expression" [] = (noDataErr, initState) ∧
    errorContains noDataErr "No data loaded" = true :=
  C6_reading_before_query testLib testOracle initState "differential_expression" [] rfl
    (by decide)

/-- C10: when the most recent query tool succeeded (its result dict has no
`error` key) but materialized a WorkingTable with zero rows, every
WorkingTable-reading tool returns the same "No data loaded" error dict as
on a never-queried executor: the two states are indistinguishable at the
tool interface. -/
theorem C10_empty_table_reads_as_never_queried (lib : StatsLib) (oracle : GraphOracle)
    (st : ExecState) (qargs : Args) (df : DataFrame) (name : String) (args2 : Args)
    (hq : (execute lib oracle st "execute_sparql" qargs).2.current_df = some df)
    (hrows : df.rows = [])
    (_hok : ((execute lib oracle st "execute_sparql" qargs).1.getKey? "error") = none)
    (hname : name ∈ readingToolNames) :
    (execute lib oracle (execute lib oracle st "execute_sparql" qargs).2 name args2).1 =
      noDataErr ∧
    (execute lib oracle initState name args2).1 = noDataErr ∧
    errorContains noDataErr "No data loaded" = true := by
  refine ⟨?_, ?_, by decide⟩
  · rw [execute_reading_noData lib oracle _ name args2 (by simp [noData, hq, hrows]) hname]
  · rw [execute_reading_noData lib oracle initState name args2 rfl hname]

theorem C10_empty_table_reads_as_never_queried_witness :
    (execute testLib testOracle
      (execute testLib testOracle initState "execute_sparql"
        [("template_name", AVal.aStr "all_genes")]).2 "summarize_by_group" []).1 = noDataErr ∧
    (execute testLib testOracle initState "summarize_by_group" []).1 = noDataErr ∧
    errorContains noDataErr "No data loaded" = true :=
  C10_empty_table_reads_as_never_queried testLib testOracle initState
    [("template_name", AVal.aStr "all_genes")]
    { cols := ["gene", "expressionValue"], rows := [] } "summarize_by_group" []
    (by rfl) (by rfl) (by rfl) (by decide)

theorem answerLoop_succ (lib : StatsLib) (oracle : GraphOracle) (provider : Provider)
    (m f : ℕ) (msgs : List Message) (hist : List CallRecord) (st : ExecState) :
    answerLoop lib oracle provider m (f + 1) msgs hist st =
      (let resp := provider msgs
       if resp.toolCalls.isEmpty then
         Except.ok { answer := some resp.content, tool_calls := some hist,
                     iterations := some (m - f), warning := none, error := none }
       else
         let step := execCalls lib oracle st resp.toolCalls
         let hist2 := hist ++ step.2.1
         let msgs2 := msgs ++ turnMessages resp step.2.2
         match f with
         | 0 =>
             Except.ok { answer := some ("Maximum iterations reached. Partial answer: " ++
                           resp.content),
                         tool_calls := some hist2, iterations := some m,
                         warning := some "Max iterations reached", error := none }
         | f2 + 1 => answerLoop lib oracle provider m (f2 + 1) msgs2 hist2 step.1) := by
  rw [answerLoop]

/-- C7: for every response sequence whose first provider response has an
empty tool-call list, `answer_question` returns with `iterations == 1`, an
empty tool-call history, and the response content as the answer. -/
theorem C7_first_response_final (lib : StatsLib) (oracle : GraphOracle) (provider : Provider)
    (max_iterations : ℕ) (question : String) (h1 : 1 ≤ max_iterations)
    (hresp : (provider [userMsg question]).toolCalls = []) :
    answer_question lib oracle provider max_iterations question =
      Except.ok { answer := some (provider [userMsg question]).content,
                  tool_calls := some [], iterations := some 1, warning := none, error := none } := by
  obtain ⟨f, rfl⟩ : ∃ f, max_iterations = f + 1 := ⟨max_iterations - 1, by omega⟩
  unfold answer_question
  rw [answerLoop_succ]
  simp [hresp]

theorem answerLoop_forced (lib : StatsLib) (oracle : GraphOracle) (provider : Provider)
    (max_iterations : ℕ) (h : ∀ msgs, (provider msgs).toolCalls ≠ []) :
    ∀ (f : ℕ) (s : List Message × List CallRecord × ExecState),
      answerLoop lib oracle provider max_iterations (f + 1) s.1 s.2.1 s.2.2 =
        Except.ok { answer := some ("Maximum iterations reached. Partial answer: " ++
                      (provider ((sessionStep lib oracle provider)^[f] s).1).content),
                    tool_calls := some ((sessionStep lib oracle provider)^[f + 1] s).2.1,
                    iterations := some max_iterations, warning := some "Max iterations reached",
                    error := none } := by
  intro f
  induction f with
  | zero =>
      intro s
      have hne : (provider s.1).toolCalls.isEmpty = false := by
        simpa [List.isEmpty_iff] using h s.1
      rw [answerLoop_succ]
      simp [hne, sessionStep]
  | succ f2 ih =>
      intro s
      have hne : (provider s.1).toolCalls.isEmpty = false := by
        simpa [List.isEmpty_iff] using h s.1
      rw [answerLoop_succ]
      simp only [hne, Bool.false_eq_true, if_false]
      have := ih (sessionStep lib oracle provider s)
      simp only [sessionStep] at this
      rw [this]
      have hstep :
          (s.1 ++ turnMessages (provider s.1)
             (execCalls lib oracle s.2.2 (provider s.1).toolCalls).2.2,
           s.2.1 ++ (execCalls lib oracle s.2.2 (provider s.1).toolCalls).2.1,
           (execCalls lib oracle s.2.2 (provider s.1).toolCalls).1) =
          sessionStep lib oracle provider s := rfl
      rw [hstep, ← Function.iterate_succ_apply, ← Function.iterate_succ_apply]

/-- C1: for every session whose provider returns a non-empty tool-call
list on every call, `answer_question` terminates with
`iterations = max_iterations`, a warning flag set, and the answer equal to
"Maximum iterations reached. Partial answer: " concatenated with the
content of the last provider response (the response to the history built
after `max_iterations - 1` full iterations), for every
`max_iterations ≥ 1`. -/
theorem C1_forced_max_iterations (lib : StatsLib) (oracle : GraphOracle) (provider : Provider)
    (max_iterations : ℕ) (question : String) (h1 : 1 ≤ max_iterations)
    (h : ∀ msgs, (provider msgs).toolCalls ≠ []) :
    answer_question lib oracle provider max_iterations question =
      Except.ok { answer := some ("Maximum iterations reached. Partial answer: " ++
                    (provider (sessionState lib oracle provider question
                      (max_iterations - 1)).1).content),
                  tool_calls := some (sessionState lib oracle provider question
                    max_iterations).2.1,
                  iterations := some max_iterations, warning := some "Max iterations reached",
                  error := none } := by
  obtain ⟨f, rfl⟩ : ∃ f, max_iterations = f + 1 := ⟨max_iterations - 1, by omega⟩
  unfold answer_question
  have := answerLoop_forced lib oracle provider (f + 1) h f ([userMsg question], [], initState)
  simpa [sessionState] using this

theorem C7_first_response_final_witness :
    answer_question testLib testOracle doneProvider 10 "Q" =
      Except.ok { answer := some (doneProvider [userMsg "Q"]).content, tool_calls := some [],
                  iterations := some 1, warning := none, error := none } :=
  C7_first_response_final testLib testOracle doneProvider 10 "Q" (by omega) rfl

theorem C1_forced_max_iterations_witness :
    answer_question testLib testOracle loopingProvider 2 "Q" =
      Except.ok { answer := some ("Maximum iterations reached. Partial answer: " ++
                    (loopingProvider (sessionState testLib testOracle loopingProvider "Q"
                      (2 - 1)).1).content),
                  tool_calls := some (sessionState testLib testOracle loopingProvider "Q" 2).2.1,
                  iterations := some 2, warning := some "Max iterations reached",
                  error := none } :=
  C1_forced_max_iterations testLib testOracle loopingProvider 2 "Q" (by omega)
    (fun _ => by simp [loopingProvider])

theorem answerLoop_ok_answer (lib : StatsLib) (oracle : GraphOracle) (provider : Provider)
    (m : ℕ) :
    ∀ (f : ℕ) (msgs : List Message) (hist : List CallRecord) (st : ExecState) (r : AgentResult),
      answerLoop lib oracle provider m f msgs hist st = Except.ok r → r.answer.isSome := by
  intro f
  induction f with
  | zero =>
      intro msgs hist st r hr
      simp [answerLoop] at hr
  | succ f2 ih =>
      intro msgs hist st r hr
      rw [answerLoop_succ] at hr
      by_cases hE : (provider msgs).toolCalls.isEmpty = true
      · simp only [hE, if_true] at hr
        injection hr with h
        rw [← h]
        simp
      · simp only [hE, Bool.false_eq_true, if_false] at hr
        cases f2 with
        | zero =>
            injection hr with h
            rw [← h]
            simp
        | succ f3 => exact ih _ _ _ _ hr

/-- C9 (amended): for every question answered through the orchestrator
(`answer_question` or `answer_cq`), a returned top-level result dict always
contains an `answer` key or an `error` key.  The literal claim that the
answer value is non-empty fails: see `C9_counterexample`. -/
theorem C9_amended (lib : StatsLib) (oracle : GraphOracle) (provider : Provider)
    (max_iterations : ℕ) (question cq_id : String) (params : List (String × String))
    (r : AgentResult) :
    (answer_question lib oracle provider max_iterations question = Except.ok r ∨
     answer_cq lib oracle provider max_iterations cq_id params = Except.ok r) →
    r.answer.isSome ∨ r.error.isSome := by
  intro hr
  rcases hr with hq | hcq
  · exact Or.inl (answerLoop_ok_answer lib oracle provider max_iterations _ _ _ _ r hq)
  · simp only [answer_cq] at hcq
    split at hcq
    · injection hcq with h
      rw [← h]
      right
      simp
    · unfold answer_question at hcq
      exact Or.inl (answerLoop_ok_answer lib oracle provider max_iterations _ _ _ _ r hcq)

theorem C9_amended_witness :
    ({ answer := some "The answer is 42.", tool_calls := some [], iterations := some 1,
       warning := none, error := none } : AgentResult).answer.isSome ∨
    ({ answer := some "The answer is 42.", tool_calls := some [], iterations := some 1,
       warning := none, error := none } : AgentResult).error.isSome :=
  C9_amended testLib testOracle doneProvider 10 "Q" "CQ1" [] _ (Or.inl rfl)

/-- C9 (counterexample): a provider whose final response has empty content
gives a result whose `answer` key holds the empty string and which has no
`error` key, refuting the claim that the result always carries a non-empty
answer or an error. -/
theorem C9_counterexample :
    answer_question testLib testOracle emptyContentProvider 10 "Q" =
      Except.ok { answer := some "", tool_calls := some [], iterations := some 1,
                  warning := none, error := none } ∧
    ¬ hasNonemptyAnswerOrError { answer := some "", tool_calls := some [],
                                 iterations := some 1, warning := none, error := none } := by
  constructor
  · rfl
  · simp [hasNonemptyAnswerOrError]

theorem isSubstr_insufficient (a b : String) :
    isSubstr "Insufficient samples" ("Insufficient samples: " ++ a ++ " < " ++ b) = true := rfl

/-- C8: `compute_correlation` drops rows with a missing value in either
column; below the configurable minimum sample count it returns a null
coefficient with an error containing "Insufficient samples"; otherwise it
returns the requested coefficient (with a p-value exactly when the
statistics library is available), and `significant` holds iff a p-value
exists and is below 0.05. -/
theorem C8_compute_correlation (lib : StatsLib) (df : DataFrame) (x_col y_col method : String)
    (min_samples : ℕ) :
    (compute_correlation lib df x_col y_col method min_samples).n_samples =
      (validPairs df x_col y_col).length ∧
    ((validPairs df x_col y_col).length < min_samples →
      (compute_correlation lib df x_col y_col method min_samples).correlation = none ∧
      ∃ msg, (compute_correlation lib df x_col y_col method min_samples).error = some msg ∧
        isSubstr "Insufficient samples" msg = true) ∧
    (min_samples ≤ (validPairs df x_col y_col).length →
      (compute_correlation lib df x_col y_col method min_samples).error = none ∧
      (lib.scipyAvailable = true →
        (method = "pearson" →
          (compute_correlation lib df x_col y_col method min_samples).correlation =
            some (lib.pearsonr (validPairs df x_col y_col)).1 ∧
          (compute_correlation lib df x_col y_col method min_samples).p_value =
            some (lib.pearsonr (validPairs df x_col y_col)).2) ∧
        (method ≠ "pearson" →
          (compute_correlation lib df x_col y_col method min_samples).correlation =
            some (lib.spearmanr (validPairs df x_col y_col)).1 ∧
          (compute_correlation lib df x_col y_col method min_samples).p_value =
            some (lib.spearmanr (validPairs df x_col y_col)).2)) ∧
      (lib.scipyAvailable = false →
        (compute_correlation lib df x_col y_col method min_samples).correlation =
          some (lib.corrFallback method (validPairs df x_col y_col)) ∧
        (compute_correlation lib df x_col y_col method min_samples).p_value = none)) ∧
    ((compute_correlation lib df x_col y_col method min_samples).significant = true ↔
      ∃ p, (compute_correlation lib df x_col y_col method min_samples).p_value = some p ∧
        p < 1/20) := by
  by_cases hn : (validPairs df x_col y_col).length < min_samples
  · refine ⟨?_, fun _ => ⟨?_, ?_⟩, fun hge => absurd hn (by omega), ?_⟩
    · simp [compute_correlation, hn]
    · simp [compute_correlation, hn]
    · refine ⟨"Insufficient samples: " ++ natToStr (validPairs df x_col y_col).length ++
        " < " ++ natToStr min_samples, ?_, isSubstr_insufficient _ _⟩
      simp [compute_correlation, hn]
    · simp [compute_correlation, hn]
  · refine ⟨?_, fun hlt => absurd hlt hn, fun _ => ⟨?_, fun hscipy => ⟨fun hm => ?_, fun hm => ?_⟩,
      fun hscipy => ?_⟩, ?_⟩
    · simp [compute_correlation, hn]
    · simp [compute_correlation, hn]
    · simp [compute_correlation, hn, hscipy, hm]
    · have hbeq : (method == "pearson") = false := by simp [hm]
      simp [compute_correlation, hn, hscipy, hbeq]
    · simp [compute_correlation, hn, hscipy]
    · by_cases hscipy : lib.scipyAvailable = true
      · by_cases hm : (method == "pearson") = true
        · simp [compute_correlation, hn, hscipy, hm]
        · simp only [Bool.not_eq_true] at hm
          simp [compute_correlation, hn, hscipy, hm]
      · simp only [Bool.not_eq_true] at hscipy
        simp [compute_correlation, hn, hscipy]

theorem C8_compute_correlation_witness :
    (compute_correlation testLib dfXY "x" "y" "pearson" 3).correlation = some (1/2) ∧
    (compute_correlation testLib dfXY "x" "y" "pearson" 3).significant = true ∧
    (compute_correlation testLib dfXY "x" "y" "pearson" 4).correlation = none := by
  have hpairs : validPairs dfXY "x" "y" = [(1, 2), (2, 4), (4, 8)] := rfl
  have h3 := C8_compute_correlation testLib dfXY "x" "y" "pearson" 3
  have h4 := C8_compute_correlation testLib dfXY "x" "y" "pearson" 4
  refine ⟨?_, ?_, ?_⟩
  · exact (((h3.2.2.1 (by rw [hpairs]; norm_num)).2.1 rfl).1 rfl).1
  · refine h3.2.2.2.mpr ⟨1/100, ?_, by norm_num⟩
    exact (((h3.2.2.1 (by rw [hpairs]; norm_num)).2.1 rfl).1 rfl).2
  · exact (h4.2.1 (by rw [hpairs]; norm_num)).1

/-- C4: `compute_fold_change` partitions rows by case-insensitive substring
match of each group label, computes arithmetic means, returns
`log2((mean1+pseudocount)/(mean2+pseudocount))` in logarithmic mode and the
raw ratio otherwise, and attaches the unequal-variance t-test p-value
exactly when both groups have at least two samples (scipy available); on
the concrete examples, A=[10,12,11] vs B=[5,6,4] gives means 11 and 5 with
positive fold change, and A=[5,5] vs B=[20,20] gives a negative one. -/
theorem C4_compute_fold_change (lib : StatsLib)
    (hlog_pos : ∀ x : ℚ, 1 < x → 0 < lib.log2 x)
    (hlog_neg : ∀ x : ℚ, 0 < x → x < 1 → lib.log2 x < 0) :
    (∀ (df : DataFrame) (gc vc g1 g2 : String) (lg : Bool) (pc : ℚ),
      groupVals df gc vc g1 ≠ [] → groupVals df gc vc g2 ≠ [] →
      (compute_fold_change lib df gc vc g1 g2 lg pc).mean_group1 =
        some (qmean (groupVals df gc vc g1)) ∧
      (compute_fold_change lib df gc vc g1 g2 lg pc).mean_group2 =
        some (qmean (groupVals df gc vc g2)) ∧
      (lg = true →
        (compute_fold_change lib df gc vc g1 g2 lg pc).fold_change =
          some (lib.log2 ((qmean (groupVals df gc vc g1) + pc) /
            (qmean (groupVals df gc vc g2) + pc)))) ∧
      (lg = false → qmean (groupVals df gc vc g2) ≠ 0 →
        (compute_fold_change lib df gc vc g1 g2 lg pc).fold_change =
          some (qmean (groupVals df gc vc g1) / qmean (groupVals df gc vc g2))) ∧
      (lib.scipyAvailable = true →
        ((2 ≤ (groupVals df gc vc g1).length ∧ 2 ≤ (groupVals df gc vc g2).length) →
          (compute_fold_change lib df gc vc g1 g2 lg pc).p_value =
            some (lib.ttest_ind (groupVals df gc vc g1) (groupVals df gc vc g2))) ∧
        (¬ (2 ≤ (groupVals df gc vc g1).length ∧ 2 ≤ (groupVals df gc vc g2).length) →
          (compute_fold_change lib df gc vc g1 g2 lg pc).p_value = none))) ∧
    ((compute_fold_change lib dfAB "group" "value" "A" "B" true 1).mean_group1 = some 11 ∧
     (compute_fold_change lib dfAB "group" "value" "A" "B" true 1).mean_group2 = some 5 ∧
     ∃ v, (compute_fold_change lib dfAB "group" "value" "A" "B" true 1).fold_change = some v ∧
       0 < v) ∧
    (∃ v, (compute_fold_change lib dfAB2 "group" "value" "A" "B" true 1).fold_change = some v ∧
       v < 0) := by
  have main : ∀ (df : DataFrame) (gc vc g1 g2 : String) (lg : Bool) (pc : ℚ),
      groupVals df gc vc g1 ≠ [] → groupVals df gc vc g2 ≠ [] →
      (compute_fold_change lib df gc vc g1 g2 lg pc).mean_group1 =
        some (qmean (groupVals df gc vc g1)) ∧
      (compute_fold_change lib df gc vc g1 g2 lg pc).mean_group2 =
        some (qmean (groupVals df gc vc g2)) ∧
      (lg = true →
        (compute_fold_change lib df gc vc g1 g2 lg pc).fold_change =
          some (lib.log2 ((qmean (groupVals df gc vc g1) + pc) /
            (qmean (groupVals df gc vc g2) + pc)))) ∧
      (lg = false → qmean (groupVals df gc vc g2) ≠ 0 →
        (compute_fold_change lib df gc vc g1 g2 lg pc).fold_change =
          some (qmean (groupVals df gc vc g1) / qmean (groupVals df gc vc g2))) ∧
      (lib.scipyAvailable = true →
        ((2 ≤ (groupVals df gc vc g1).length ∧ 2 ≤ (groupVals df gc vc g2).length) →
          (compute_fold_change lib df gc vc g1 g2 lg pc).p_value =
            some (lib.ttest_ind (groupVals df gc vc g1) (groupVals df gc vc g2))) ∧
        (¬ (2 ≤ (groupVals df gc vc g1).length ∧ 2 ≤ (groupVals df gc vc g2).length) →
          (compute_fold_change lib df gc vc g1 g2 lg pc).p_value = none)) := by
    intro df gc vc g1 g2 lg pc h1 h2
    have hn1 : ¬ (groupVals df gc vc g1).length = 0 := by
      simpa [List.length_eq_zero] using h1
    have hn2 : ¬ (groupVals df gc vc g2).length = 0 := by
      simpa [List.length_eq_zero] using h2
    refine ⟨?_, ?_, fun hlg => ?_, fun hlg hm2 => ?_, fun hscipy => ⟨fun hle => ?_, fun hle => ?_⟩⟩
    · simp [compute_fold_change, hn1, hn2]
    · simp [compute_fold_change, hn1, hn2]
    · simp [compute_fold_change, hn1, hn2, hlg]
    · simp [compute_fold_change, hn1, hn2, hlg, hm2]
    · simp [compute_fold_change, hn1, hn2, hscipy, hle.1, hle.2]
    · simp only [compute_fold_change]
      simp [hn1, hn2, hscipy, hle]
  refine ⟨main, ?_, ?_⟩
  · have hv1 : groupVals dfAB "group" "value" "A" = [10, 12, 11] := rfl
    have hv2 : groupVals dfAB "group" "value" "B" = [5, 6, 4] := rfl
    have h := main dfAB "group" "value" "A" "B" true 1 (by rw [hv1]; simp) (by rw [hv2]; simp)
    rw [hv1, hv2] at h
    have hm1 : qmean [(10 : ℚ), 12, 11] = 11 := by norm_num [qmean]
    have hm2 : qmean [(5 : ℚ), 6, 4] = 5 := by norm_num [qmean]
    rw [hm1, hm2] at h
    refine ⟨h.1, h.2.1, lib.log2 2, ?_, hlog_pos 2 (by norm_num)⟩
    have harg : ((11 : ℚ) + 1) / (5 + 1) = 2 := by norm_num
    have := h.2.2.1 rfl
    rw [harg] at this
    exact this
  · have hv1 : groupVals dfAB2 "group" "value" "A" = [5, 5] := rfl
    have hv2 : groupVals dfAB2 "group" "value" "B" = [20, 20] := rfl
    have h := main dfAB2 "group" "value" "A" "B" true 1 (by rw [hv1]; simp) (by rw [hv2]; simp)
    rw [hv1, hv2] at h
    have hm1 : qmean [(5 : ℚ), 5] = 5 := by norm_num [qmean]
    have hm2 : qmean [(20 : ℚ), 20] = 20 := by norm_num [qmean]
    rw [hm1, hm2] at h
    refine ⟨lib.log2 ((5 + 1) / (20 + 1)), h.2.2.1 rfl, ?_⟩
    exact hlog_neg _ (by norm_num) (by norm_num)

theorem C4_compute_fold_change_witness :
    (compute_fold_change testLib dfAB "group" "value" "A" "B" true 1).mean_group1 = some 11 ∧
    ∃ v, (compute_fold_change testLib dfAB "group" "value" "A" "B" true 1).fold_change =
      some v ∧ 0 < v := by
  have h := C4_compute_fold_change testLib
    (fun x hx => by simpa [testLib] using sub_pos.mpr hx)
    (fun x hx0 hx1 => by simpa [testLib] using sub_neg.mpr hx1)
  exact ⟨h.2.1.1, h.2.1.2.2⟩

theorem sig_iff_generic (lv pv : Option ℚ) (thr pthr : ℚ) :
    (((match lv with | some v => decide (thr ≤ |v|) | none => false) &&
      ((match pv with | some p => decide (p < pthr) | none => false) || pv.isNone)) = true) ↔
    ((∃ v, lv = some v ∧ thr ≤ |v|) ∧ ((∃ p, pv = some p ∧ p < pthr) ∨ pv = none)) := by
  cases lv <;> cases pv <;> simp

theorem direction_generic (lv : Option ℚ) (thr : ℚ) :
    (if ((match lv with | some v => decide (thr ≤ |v|) | none => false) : Bool) = true
     then some (if 0 < lv.getD 0 then "up" else "down") else none) =
    (match lv with
     | some v => if thr ≤ |v| then some (if 0 < v then "up" else "down") else none
     | none => none) := by
  cases lv <;> simp

theorem deLE_iff (a b : DEResult) :
    deLE a b = true ↔
      ((b.significant = true → a.significant = true) ∧
       (a.significant = b.significant →
         absOrZero b.log2FoldChange ≤ absOrZero a.log2FoldChange)) := by
  cases ha : a.significant <;> cases hb : b.significant <;> simp [deLE, ha, hb]

theorem deLE_trans (a b c : DEResult) (hab : deLE a b = true) (hbc : deLE b c = true) :
    deLE a c = true := by
  rw [deLE_iff] at hab hbc ⊢
  obtain ⟨h1, h2⟩ := hab
  obtain ⟨h3, h4⟩ := hbc
  cases ha : a.significant <;> cases hb : b.significant <;> cases hc : c.significant <;>
    simp_all <;> linarith

theorem deLE_total (a b : DEResult) : (deLE a b || deLE b a) = true := by
  cases ha : a.significant <;> cases hb : b.significant <;> simp [deLE, ha, hb]
  · exact le_total _ _
  · exact le_total _ _

/-- C2: in a `differential_expression` result, a gene is significant iff
its log2 fold change is defined with absolute value at least the fold
threshold AND (a p-value was computed and is below the p-value threshold,
or no p-value could be computed); the direction is "up" iff the fold
change is positive, "down" otherwise, and set exactly when the fold
threshold is met; and the rows are ordered by significance descending then
absolute fold change descending. -/
theorem C2_differential_expression (lib : StatsLib) (df : DataFrame)
    (gc g1 g2 gene_col value_col : String) (thr pthr : ℚ) (cl : Option String) (clc : String) :
    (∀ r ∈ differential_expression lib df gc g1 g2 gene_col value_col thr pthr cl clc,
      (r.significant = true ↔
        ((∃ v, r.log2FoldChange = some v ∧ thr ≤ |v|) ∧
         ((∃ p, r.pvalue = some p ∧ p < pthr) ∨ r.pvalue = none))) ∧
      (r.direction = match r.log2FoldChange with
        | some v => if thr ≤ |v| then some (if 0 < v then "up" else "down") else none
        | none => none)) ∧
    (differential_expression lib df gc g1 g2 gene_col value_col thr pthr cl clc).Pairwise
      (fun a b =>
        (b.significant = true → a.significant = true) ∧
        (a.significant = b.significant →
          absOrZero b.log2FoldChange ≤ absOrZero a.log2FoldChange)) := by
  constructor
  · intro r hr
    simp only [differential_expression] at hr
    rw [mem_mergeSort] at hr
    obtain ⟨g, hg, rfl⟩ := List.mem_map.mp hr
    constructor
    · simpa only [deRow] using
        sig_iff_generic
          (compute_fold_change lib _ gc value_col g1 g2 true 1).fold_change
          (compute_fold_change lib _ gc value_col g1 g2 true 1).p_value thr pthr
    · simpa only [deRow] using
        direction_generic
          (compute_fold_change lib _ gc value_col g1 g2 true 1).fold_change thr
  · simp only [differential_expression]
    exact (List.sorted_mergeSort deLE_trans deLE_total _).imp fun h => (deLE_iff _ _).mp h

theorem C2_differential_expression_witness :
    ∃ r, r ∈ differential_expression testLib dfDE "processType" "A" "B" "gene"
        "expressionValue" 1 (1/20) none "cellLineLabel" ∧
      r.significant = false ∧ r.direction = none := by
  have hout : differential_expression testLib dfDE "processType" "A" "B" "gene"
      "expressionValue" 1 (1/20) none "cellLineLabel" =
      [deRow testLib dfDE "processType" "A" "B" "gene" "expressionValue" 1 (1/20)
        (Cell.str "G1")] := by
    have h1 : differential_expression testLib dfDE "processType" "A" "B" "gene"
        "expressionValue" 1 (1/20) none "cellLineLabel" =
        [deRow testLib dfDE "processType" "A" "B" "gene" "expressionValue" 1 (1/20)
          (Cell.str "G1")].mergeSort deLE := rfl
    rw [h1, List.mergeSort_singleton]
  have hr : deRow testLib dfDE "processType" "A" "B" "gene" "expressionValue" 1 (1/20)
      (Cell.str "G1") ∈ differential_expression testLib dfDE "processType" "A" "B" "gene"
        "expressionValue" 1 (1/20) none "cellLineLabel" := by
    rw [hout]; exact List.mem_singleton_self _
  have h := (C2_differential_expression testLib dfDE "processType" "A" "B" "gene"
    "expressionValue" 1 (1/20) none "cellLineLabel").1 _ hr
  refine ⟨_, hr, ?_, ?_⟩
  · have hfc : (deRow testLib dfDE "processType" "A" "B" "gene" "expressionValue" 1 (1/20)
        (Cell.str "G1")).log2FoldChange = none := rfl
    have hnot : ¬ ((deRow testLib dfDE "processType" "A" "B" "gene" "expressionValue" 1 (1/20)
        (Cell.str "G1")).significant = true) := by
      intro hs
      obtain ⟨⟨v, hv, _⟩, _⟩ := h.1.mp hs
      rw [hfc] at hv
      cases hv
    simpa using hnot
  · have hfc : (deRow testLib dfDE "processType" "A" "B" "gene" "expressionValue" 1 (1/20)
        (Cell.str "G1")).log2FoldChange = none := rfl
    rw [h.2, hfc]

theorem pLE_trans (a b c : EnrichResult) (hab : pLE a b = true) (hbc : pLE b c = true) :
    pLE a c = true := by
  simp only [pLE, decide_eq_true_eq] at *
  exact le_trans hab hbc

theorem pLE_total (a b : EnrichResult) : (pLE a b || pLE b a) = true := by
  simp only [pLE, Bool.or_eq_true, decide_eq_true_eq]
  exact le_total _ _

theorem apply_fdr_length (l : List EnrichResult) :
    (apply_fdr_correction l).length = l.length := by
  simp [apply_fdr_correction, List.enum_length, (List.mergeSort_perm l pLE).length_eq]

theorem apply_fdr_get (l : List EnrichResult) (i : ℕ)
    (h : i < (apply_fdr_correction l).length) (h2 : i < (l.mergeSort pLE).length) :
    (apply_fdr_correction l).get ⟨i, h⟩ =
      (match ((l.mergeSort pLE).get ⟨i, h2⟩).p_value with
       | some p => { (l.mergeSort pLE).get ⟨i, h2⟩ with
                     p_adjusted := some (min (p * l.length / (i + 1)) 1) }
       | none => { (l.mergeSort pLE).get ⟨i, h2⟩ with p_adjusted := none }) := by
  simp only [apply_fdr_correction, List.get_eq_getElem, List.getElem_map, List.getElem_enum]

theorem apply_fdr_get_p_value (l : List EnrichResult) (i : ℕ)
    (h : i < (apply_fdr_correction l).length) (h2 : i < (l.mergeSort pLE).length) :
    ((apply_fdr_correction l).get ⟨i, h⟩).p_value =
      ((l.mergeSort pLE).get ⟨i, h2⟩).p_value := by
  rw [apply_fdr_get l i h h2]
  cases hp : ((l.mergeSort pLE).get ⟨i, h2⟩).p_value <;> simp_all [List.get_eq_getElem]

theorem apply_fdr_mem {l : List EnrichResult} {r : EnrichResult}
    (hr : r ∈ apply_fdr_correction l) :
    ∃ r0 ∈ l, r.p_value = r0.p_value ∧ r.pathway_id = r0.pathway_id := by
  simp only [apply_fdr_correction] at hr
  obtain ⟨⟨i, r1⟩, hmem, rfl⟩ := List.mem_map.mp hr
  obtain ⟨hi, hr1⟩ := List.mem_enum hmem
  have hr1mem : r1 ∈ l.mergeSort pLE := by
    rw [hr1]
    exact List.getElem_mem hi
  refine ⟨r1, (mem_mergeSort pLE l r1).mp hr1mem, ?_, ?_⟩ <;>
    cases hp : r1.p_value <;> simp [hp]

theorem calc_enrichment_p_value (query pg background : Finset String) (pid : String)
    (hM : background.card ≠ 0) (hn : (pg ∩ background).card ≠ 0)
    (hN : (query ∩ background).card ≠ 0) :
    (calculate_enrichment true query pg background pid).p_value =
      some (hypergeomSurv ((query ∩ pg).card) background.card
        ((pg ∩ background).card) ((query ∩ background).card)) := by
  simp [calculate_enrichment, hM, hn, hN]

theorem calc_enrichment_p_value_inv {query pg background : Finset String} {pid : String}
    {p : ℚ} (h : (calculate_enrichment true query pg background pid).p_value = some p) :
    p = hypergeomSurv ((query ∩ pg).card) background.card
      ((pg ∩ background).card) ((query ∩ background).card) := by
  simp only [calculate_enrichment] at h
  split at h
  · simp at h
  · simp only at h
    exact (Option.some.inj h).symm

theorem calc_enrichment_pathway_id (s : Bool) (query pg background : Finset String)
    (pid : String) : (calculate_enrichment s query pg background pid).pathway_id = pid := by
  simp only [calculate_enrichment]
  split <;> rfl

theorem enrich_filter_mem {s : Bool} {query background : Finset String} {thr : ℚ}
    {pathways : List (String × Finset String)} {r : EnrichResult}
    (hr : r ∈ enrich_filter s query background thr pathways) :
    ∃ pw ∈ pathways, ∃ p, r = calculate_enrichment s query pw.2 background pw.1 ∧
      (calculate_enrichment s query pw.2 background pw.1).p_value = some p ∧ p < thr := by
  simp only [enrich_filter] at hr
  obtain ⟨pw, hpw, hf⟩ := List.mem_filterMap.mp hr
  rcases hp : (calculate_enrichment s query pw.2 background pw.1).p_value with _ | p
  · rw [hp] at hf
    cases hf
  · rw [hp] at hf
    by_cases hlt : p < thr
    · simp only [hlt, if_true] at hf
      injection hf with hf2
      exact ⟨pw, hpw, p, hf2.symm, hp, hlt⟩
    · simp [hlt] at hf

/-- C3: each computed pathway p-value is the one-sided hypergeometric
survival probability `P(X ≥ k)` (scipy `sf` at `k-1`) with population =
background size, successes = pathway-in-background, draws =
query-in-background; only pathways with p below the threshold are
retained, sorted ascending by raw p-value; the Benjamini-Hochberg adjusted
value at 1-based rank `r` over the retained list is
`min(1, p_raw * n / r)`, so a single retained pathway gets
`p_adjusted = min(1, p_raw)`. -/
theorem C3_enrichment_pipeline (pathways : List (String × Finset String))
    (query background : Finset String) (thr : ℚ) :
    (∀ (pid : String) (pg : Finset String),
      background.card ≠ 0 → (pg ∩ background).card ≠ 0 → (query ∩ background).card ≠ 0 →
      (calculate_enrichment true query pg background pid).p_value =
        some (hypergeomSurv ((query ∩ pg).card) background.card
          ((pg ∩ background).card) ((query ∩ background).card))) ∧
    (∀ r ∈ enrich_pipeline true pathways query background thr,
      ∃ p, r.p_value = some p ∧ p < thr ∧
        ∃ pw ∈ pathways, r.pathway_id = pw.1 ∧
          p = hypergeomSurv ((query ∩ pw.2).card) background.card
            ((pw.2 ∩ background).card) ((query ∩ background).card)) ∧
    (enrich_pipeline true pathways query background thr).Pairwise
      (fun a b => a.p_value.getD 1 ≤ b.p_value.getD 1) ∧
    (∀ (i : ℕ) (h : i < (enrich_pipeline true pathways query background thr).length),
      ∃ p, ((enrich_pipeline true pathways query background thr).get ⟨i, h⟩).p_value =
          some p ∧
        ((enrich_pipeline true pathways query background thr).get ⟨i, h⟩).p_adjusted =
          some (min (p * (enrich_pipeline true pathways query background thr).length /
            (i + 1)) 1)) ∧
    (∀ r, enrich_pipeline true pathways query background thr = [r] →
      ∃ p, r.p_value = some p ∧ r.p_adjusted = some (min p 1)) := by
  have hmemF : ∀ r0 ∈ (enrich_filter true query background thr pathways).mergeSort pLE,
      ∃ p, r0.p_value = some p ∧ p < thr ∧
        ∃ pw ∈ pathways, r0.pathway_id = pw.1 ∧
          p = hypergeomSurv ((query ∩ pw.2).card) background.card
            ((pw.2 ∩ background).card) ((query ∩ background).card) := by
    intro r0 hr0
    obtain ⟨pw, hpw, p, hEq, hp, hlt⟩ :=
      enrich_filter_mem ((mem_mergeSort pLE _ r0).mp hr0)
    refine ⟨p, ?_, hlt, pw, hpw, ?_, calc_enrichment_p_value_inv hp⟩
    · rw [hEq]; exact hp
    · rw [hEq]; exact calc_enrichment_pathway_id true query pw.2 background pw.1
  have hBH : ∀ (i : ℕ) (h : i < (enrich_pipeline true pathways query background thr).length),
      ∃ p, ((enrich_pipeline true pathways query background thr).get ⟨i, h⟩).p_value =
          some p ∧
        ((enrich_pipeline true pathways query background thr).get ⟨i, h⟩).p_adjusted =
          some (min (p * (enrich_pipeline true pathways query background thr).length /
            (i + 1)) 1) := by
    intro i h
    have h2 : i < (((enrich_filter true query background thr pathways).mergeSort
        pLE).mergeSort pLE).length := by
      rw [(List.mergeSort_perm _ pLE).length_eq]
      rw [enrich_pipeline, apply_fdr_length] at h
      exact h
    have hget := apply_fdr_get
      ((enrich_filter true query background thr pathways).mergeSort pLE) i
      (by rw [enrich_pipeline] at h; exact h) h2
    have hmem : (((enrich_filter true query background thr pathways).mergeSort
        pLE).mergeSort pLE).get ⟨i, h2⟩ ∈
        (enrich_filter true query background thr pathways).mergeSort pLE := by
      have := List.get_mem (((enrich_filter true query background thr pathways).mergeSort
        pLE).mergeSort pLE) i h2
      exact (mem_mergeSort pLE _ _).mp this
    obtain ⟨p, hp, hlt, _⟩ := hmemF _ hmem
    refine ⟨p, ?_, ?_⟩
    · rw [show (enrich_pipeline true pathways query background thr).get ⟨i, h⟩ =
        (apply_fdr_correction ((enrich_filter true query background thr
          pathways).mergeSort pLE)).get ⟨i, _⟩ from rfl, hget]
      rw [List.get_eq_getElem] at hp
      simp [hp]
    · rw [show (enrich_pipeline true pathways query background thr).get ⟨i, h⟩ =
        (apply_fdr_correction ((enrich_filter true query background thr
          pathways).mergeSort pLE)).get ⟨i, _⟩ from rfl, hget]
      have hlen : (enrich_pipeline true pathways query background thr).length =
          ((enrich_filter true query background thr pathways).mergeSort pLE).length := by
        rw [enrich_pipeline, apply_fdr_length]
      rw [hlen]
      rw [List.get_eq_getElem] at hp
      simp [hp]
  refine ⟨fun pid pg hM hn hN => calc_enrichment_p_value query pg background pid hM hn hN,
    ?_, ?_, hBH, ?_⟩
  · intro r hr
    rw [enrich_pipeline] at hr
    obtain ⟨r0, hr0, hpv, hpid⟩ := apply_fdr_mem hr
    obtain ⟨p, hp, hlt, pw, hpw, hid, hform⟩ := hmemF r0 hr0
    exact ⟨p, by rw [hpv]; exact hp, hlt, pw, hpw, by rw [hpid]; exact hid, hform⟩
  · have hS2 : ((((enrich_filter true query background thr pathways).mergeSort
        pLE).mergeSort pLE)).Pairwise (fun a b => pLE a b = true) :=
      List.sorted_mergeSort pLE_trans pLE_total _
    rw [List.pairwise_iff_get] at hS2 ⊢
    intro i j hij
    have hlen : (enrich_pipeline true pathways query background thr).length =
        (((enrich_filter true query background thr pathways).mergeSort pLE).mergeSort
          pLE).length := by
      rw [enrich_pipeline, apply_fdr_length,
        (List.mergeSort_perm ((enrich_filter true query background thr
          pathways).mergeSort pLE) pLE).length_eq]
    have hi2 : (i : ℕ) < (((enrich_filter true query background thr pathways).mergeSort
        pLE).mergeSort pLE).length := by
      rw [← hlen]; exact i.isLt
    have hj2 : (j : ℕ) < (((enrich_filter true query background thr pathways).mergeSort
        pLE).mergeSort pLE).length := by
      rw [← hlen]; exact j.isLt
    have hpi := apply_fdr_get_p_value
      ((enrich_filter true query background thr pathways).mergeSort pLE) i
      (by rw [← enrich_pipeline]; exact i.isLt) hi2
    have hpj := apply_fdr_get_p_value
      ((enrich_filter true query background thr pathways).mergeSort pLE) j
      (by rw [← enrich_pipeline]; exact j.isLt) hj2
    have hle := hS2 ⟨i, hi2⟩ ⟨j, hj2⟩ hij
    simp only [pLE, decide_eq_true_eq] at hle
    rw [show (enrich_pipeline true pathways query background thr).get i =
      (apply_fdr_correction ((enrich_filter true query background thr
        pathways).mergeSort pLE)).get ⟨i, _⟩ from rfl, hpi]
    rw [show (enrich_pipeline true pathways query background thr).get j =
      (apply_fdr_correction ((enrich_filter true query background thr
        pathways).mergeSort pLE)).get ⟨j, _⟩ from rfl, hpj]
    exact hle
  · intro r hr
    have h0 : (0 : ℕ) < (enrich_pipeline true pathways query background thr).length := by
      rw [hr]; simp
    obtain ⟨p, hp, hadj⟩ := hBH 0 h0
    have hget : (enrich_pipeline true pathways query background thr).get ⟨0, h0⟩ = r := by
      have := hr
      rw [List.get_of_eq hr]
      rfl
    rw [hget] at hp hadj
    refine ⟨p, hp, ?_⟩
    rw [hadj]
    have hlen1 : (enrich_pipeline true pathways query background thr).length = 1 := by
      rw [hr]; rfl
    rw [hlen1]
    norm_num

theorem C3_enrichment_pipeline_witness :
    (calculate_enrichment true {"g1"} {"g1"} {"g1", "g2"} "pw").p_value =
      some (hypergeomSurv (({"g1"} ∩ {"g1"} : Finset String).card)
        ({"g1", "g2"} : Finset String).card
        (({"g1"} ∩ ({"g1", "g2"} : Finset String)).card)
        (({"g1"} ∩ ({"g1", "g2"} : Finset String)).card)) :=
  (C3_enrichment_pipeline [("pw", {"g1"})] {"g1"} {"g1", "g2"} (3/5)).1 "pw" {"g1"}
    (by decide) (by decide) (by decide)

end Mcbo
